import Mathlib

/-!
Verification development for the Go error-tracker client.

Shallow embedding of `types/types.go`, `client.go`, `tracker.go`,
`core/transport.go` and `core/event_builder.go`.

Conventions of the embedding

* A Go `string` is a Lean `String`; a Go `error` is `GoError` (`none` is `nil`).
* Go `int` and `time.Duration` are 64-bit two's complement integers.  They are
  embedded as `Int`; arithmetic that can overflow goes through `wrapInt64`.
* A Go `map[string]string` is an association list; the order of the list is
  the order in which a `range` loop visits the entries.
* Functions of the Go standard library whose result decides a branch
  (`url.Parse`, `http.Header.Set`) are parameters of the embedded functions;
  models of the library functions are given separately and are used only to
  evaluate the code at concrete inputs.
* What the outside world answers (HTTP responses, the result of each call of
  `dispatchEvent`, the order in which goroutines finish, the ticks that race
  with a stop signal, the largest slice capacity the runtime allocates) is an
  explicit argument.
* A call that can panic returns a `Run` or an `Option`.
-/

namespace Tracker

/-! ## Basic types -/

/-- Go's `error`: `none` is `nil`, `some msg` an error whose text is `msg`. -/
abbrev GoError := Option String

deriving instance DecidableEq for Except

/-- Two's complement wrap-around of a 64-bit signed integer. -/
def wrapInt64 (x : Int) : Int := (x + 2 ^ 63) % 2 ^ 64 - 2 ^ 63

/-- Conversion `uint(x)` of a 64-bit `int`. -/
def toUint64 (x : Int) : Nat := (x % 2 ^ 64).toNat

/-- Go's `time.Millisecond`, in nanoseconds. -/
def Millisecond : Int := 1000000

/-- Go's `time.Second`, in nanoseconds. -/
def Second : Int := 1000000000

/-- Go's `time.Minute`, in nanoseconds. -/
def Minute : Int := 60 * Second

/-- The struct `types.ClientConfig`. -/
structure ClientConfig where
  WebhookURL : String
  LicenseID : String
  LicenseName : String
  LicenseDevice : String
  App : String
  Version : String
  Platform : String
  Enabled : Bool
  MaxRetries : Int
  Timeout : Int
  FlushInterval : Int
  MaxQueueSize : Int
  Headers : List (String × String)
deriving DecidableEq, Repr

/-- The method `(*ClientConfig).Validate` of `types/types.go`.  `urlParseErr s`
says whether `url.Parse(s)` returns a non-nil error. -/
def ClientConfig.Validate (urlParseErr : String → Bool) (c : ClientConfig) : GoError :=
  if c.WebhookURL = "" then
    some "webhookURL is required"
  else if urlParseErr c.WebhookURL then
    some "webhookURL must be a valid URL"
  else if c.LicenseID = "" then
    some "licenseID is required"
  else if c.LicenseDevice = "" then
    some "licenseDevice is required"
  else if c.MaxRetries < 0 ∨ c.MaxRetries > 10 then
    some "maxRetries must be between 0 and 10"
  else if c.Timeout < Second ∨ c.Timeout > Minute then
    some "timeout must be between 1s and 60s"
  else if c.FlushInterval < 100 * Millisecond then
    some "flushInterval must be at least 100ms"
  else if c.MaxQueueSize < 1 then
    some "maxQueueSize must be at least 1"
  else
    none

/-! ## A model of `net/url.Parse` (error result only)

`Validate` discards the parsed URL, so only the error result is modelled.  The
functions follow the Go standard library (`net/url/url.go`); they work on the
characters of the string, every byte test of the library being a test on ASCII
values. -/

namespace url

/-- The errors `url.Parse` can return. -/
inductive ParseError where
  | invalidControlCharacter
  | missingProtocolScheme
  | firstPathSegmentColon
  | missingBracket
  | invalidPort
  | invalidUserinfo
  | escapeError
  | invalidHostError
deriving DecidableEq, Repr

/-- The `encoding` modes that `unescape` is called with while parsing. -/
inductive encoding where
  | encodePath
  | encodeUserPassword
  | encodeHost
  | encodeZone
  | encodeFragment
deriving DecidableEq, Repr

/-- Go `stringContainsCTLByte`. -/
def stringContainsCTLByte (s : List Char) : Bool :=
  s.any (fun b => decide (b.toNat < 32) || decide (b.toNat = 127))

/-- ASCII letter test used by `getScheme` and `shouldEscape`. -/
def isAlpha (c : Char) : Bool :=
  (decide ('a'.toNat ≤ c.toNat) && decide (c.toNat ≤ 'z'.toNat)) ||
  (decide ('A'.toNat ≤ c.toNat) && decide (c.toNat ≤ 'Z'.toNat))

/-- ASCII digit test. -/
def isDigit (c : Char) : Bool :=
  decide ('0'.toNat ≤ c.toNat) && decide (c.toNat ≤ '9'.toNat)

/-- Go `ishex`. -/
def ishex (c : Char) : Bool :=
  isDigit c ||
  (decide ('a'.toNat ≤ c.toNat) && decide (c.toNat ≤ 'f'.toNat)) ||
  (decide ('A'.toNat ≤ c.toNat) && decide (c.toNat ≤ 'F'.toNat))

/-- Go `unhex`. -/
def unhex (c : Char) : Nat :=
  if isDigit c then c.toNat - '0'.toNat
  else if decide ('a'.toNat ≤ c.toNat) && decide (c.toNat ≤ 'f'.toNat) then c.toNat - 'a'.toNat + 10
  else if decide ('A'.toNat ≤ c.toNat) && decide (c.toNat ≤ 'F'.toNat) then c.toNat - 'A'.toNat + 10
  else 0

/-- The loop of Go `getScheme`: `i0` says whether the index is still 0 and
`acc` is the prefix read so far, reversed.  The result is `none` for the error
"missing protocol scheme", otherwise the scheme and the rest. -/
def getSchemeLoop (raw : List Char) : Bool → List Char → List Char → Option (List Char × List Char)
  | _, _, [] => some ([], raw)
  | i0, acc, c :: cs =>
    if isAlpha c then getSchemeLoop raw false (c :: acc) cs
    else if isDigit c || c = '+' || c = '-' || c = '.' then
      if i0 then some ([], raw) else getSchemeLoop raw false (c :: acc) cs
    else if c = ':' then
      if i0 then none else some (acc.reverse, cs)
    else some ([], raw)

/-- Go `getScheme`. -/
def getScheme (raw : List Char) : Option (List Char × List Char) :=
  getSchemeLoop raw true [] raw

/-- Go `strings.Cut` with a one-byte separator: the text before the first
separator and, when there is one, the text after it. -/
def cut (sep : Char) : List Char → List Char × Option (List Char)
  | [] => ([], none)
  | c :: cs =>
    if c = sep then ([], some cs)
    else ((c :: (cut sep cs).1), (cut sep cs).2)

/-- Go `strings.LastIndex` with a one-byte separator. -/
def lastIndex (sep : Char) (s : List Char) : Option Nat :=
  match (cut sep s.reverse).2 with
  | none => none
  | some before => some before.length

/-- Go `strings.Index(s, "%25")`. -/
def indexPercent25 : List Char → Option Nat
  | [] => none
  | c :: cs =>
    if (c :: cs).take 3 = ['%', '2', '5'] then some 0
    else (indexPercent25 cs).map (· + 1)

/-- Go `shouldEscape(c, encodeHost)`; `encodeZone` takes the same branches. -/
def shouldEscapeHost (c : Char) : Bool :=
  if isAlpha c || isDigit c then false
  else if c ∈ ['!', '$', '&', Char.ofNat 39, '(', ')', '*', '+', ',', ';', '=', ':', '[', ']',
      '<', '>', '"'] then false
  else if c ∈ ['-', '_', '.', '~'] then false
  else true

/-- Go `unescape`, error result only: every `%` must be followed by two hex
digits, and in host and zone mode the extra restrictions of the library apply. -/
def unescape (mode : encoding) : List Char → Option ParseError
  | [] => none
  | c :: rest =>
    if c = '%' then
      match rest with
      | a :: b :: rest2 =>
        if !ishex a || !ishex b then some .escapeError
        else if mode = .encodeHost && decide (unhex a < 8) && decide ([a, b] ≠ ['2', '5']) then
          some .escapeError
        else if mode = .encodeZone && decide ([a, b] ≠ ['2', '5']) &&
            decide (16 * unhex a + unhex b ≠ 32) &&
            shouldEscapeHost (Char.ofNat (16 * unhex a + unhex b)) then
          some .escapeError
        else unescape mode rest2
      | _ => some .escapeError
    else if (mode = .encodeHost || mode = .encodeZone) && decide (c.toNat < 128) &&
        shouldEscapeHost c then
      some .invalidHostError
    else unescape mode rest

/-- Go `validOptionalPort`. -/
def validOptionalPort : List Char → Bool
  | [] => true
  | c :: rest => c = ':' && rest.all isDigit

/-- Go `validUserinfo`. -/
def validUserinfo (s : List Char) : Bool :=
  s.all (fun r => isAlpha r || isDigit r ||
    decide (r ∈ ['-', '.', '_', ':', '~', '!', '$', '&', Char.ofNat 39, '(', ')', '*', '+', ',',
      ';', '=', '%', '@']))

/-- Go `parseHost`, error result only. -/
def parseHost (host : List Char) : Option ParseError :=
  if host.head? = some '[' then
    match lastIndex ']' host with
    | none => some .missingBracket
    | some i =>
      if !validOptionalPort (host.drop (i + 1)) then some .invalidPort
      else
        match indexPercent25 (host.take i) with
        | some zone =>
          (unescape .encodeHost (host.take zone)).orElse fun _ =>
          (unescape .encodeZone ((host.take i).drop zone)).orElse fun _ =>
          unescape .encodeHost (host.drop i)
        | none => unescape .encodeHost host
  else
    match lastIndex ':' host with
    | some i =>
      if !validOptionalPort (host.drop i) then some .invalidPort
      else unescape .encodeHost host
    | none => unescape .encodeHost host

/-- Go `parseAuthority`, error result only. -/
def parseAuthority (authority : List Char) : Option ParseError :=
  match lastIndex '@' authority with
  | none => parseHost authority
  | some i =>
    (parseHost (authority.drop (i + 1))).orElse fun _ =>
    let userinfo := authority.take i
    if !validUserinfo userinfo then some .invalidUserinfo
    else
      match cut ':' userinfo with
      | (_, none) => unescape .encodeUserPassword userinfo
      | (username, some password) =>
        (unescape .encodeUserPassword username).orElse fun _ =>
        unescape .encodeUserPassword password

/-- Go `parse(rawURL, false)`, error result only. -/
def parse (rawURL : List Char) : Option ParseError :=
  if stringContainsCTLByte rawURL then some .invalidControlCharacter
  else if rawURL = ['*'] then none
  else
    match getScheme rawURL with
    | none => some .missingProtocolScheme
    | some (scheme, rest0) =>
      let rest :=
        if rest0.getLast? = some '?' ∧ rest0.count '?' = 1 then rest0.dropLast
        else (cut '?' rest0).1
      if rest.head? ≠ some '/' ∧ scheme ≠ [] then none
      else if rest.head? ≠ some '/' ∧ ((cut '/' rest).1).contains ':' then
        some .firstPathSegmentColon
      else if (scheme ≠ [] ∨ rest.take 3 ≠ ['/', '/', '/']) ∧ rest.take 2 = ['/', '/'] then
        let authority := (cut '/' (rest.drop 2)).1
        let path := (rest.drop 2).drop authority.length
        (parseAuthority authority).orElse fun _ => unescape .encodePath path
      else unescape .encodePath rest

/-- Go `url.Parse`, error result only: the fragment is cut off at the first
`#`, the rest is parsed, then the fragment is unescaped. -/
def Parse (rawURL : String) : Option ParseError :=
  match cut '#' rawURL.toList with
  | (u, none) => parse u
  | (u, some frag) =>
    (parse u).orElse fun _ =>
    if frag = [] then none else unescape .encodeFragment frag

end url

/-- The library parameter of `Validate` instantiated with the model of
`url.Parse`. -/
def urlParseErr (s : String) : Bool := (url.Parse s).isSome

/-- The runtime parameter of `NewClient` on linux/amd64: an allocation is at
most 2^48 bytes and a `types.EventIssue` takes 232 bytes. -/
def maxSliceCap : Int := 2 ^ 48 / 232

/-! ## Events (`types/types.go`) -/

/-- The struct `types.EventContext`. -/
structure EventContext where
  Culprit : String
  Extra : List (String × String)
  Platform : String
  App : String
  Version : String
  Device : String
  Tags : List String
deriving DecidableEq, Repr

/-- The struct `types.SerializedError`. -/
structure SerializedError where
  Name : String
  Message : String
  Stack : String
  Extra : List (String × String)
deriving DecidableEq, Repr

/-- The struct `types.EventIssue`. -/
structure EventIssue where
  EventID : String
  Title : String
  Level : String
  Event : SerializedError
  Context : EventContext
  Timestamp : String
deriving DecidableEq, Repr

/-- The struct `types.TransportPayload`. -/
structure TransportPayload where
  Event : String
  LicenseID : String
  LicenseName : String
  LicenseDevice : String
deriving DecidableEq, Repr

/-! ## The client (`client.go`) -/

/-- The struct `core.EventBuilder`. -/
structure EventBuilder where
  app : String
  version : String
  platform : String
  device : String
deriving DecidableEq, Repr

/-- The constructor `core.NewEventBuilder`. -/
def NewEventBuilder (app version platform device : String) : EventBuilder :=
  { app := app, version := version, platform := platform, device := device }

/-- The struct `core.Transport`: the configuration it points to and the timeout
of its `http.Client`. -/
structure Transport where
  config : ClientConfig
  clientTimeout : Int
deriving DecidableEq, Repr

/-- The constructor `core.NewTransport`. -/
def NewTransport (config : ClientConfig) : Transport :=
  { config := config, clientTimeout := config.Timeout }

/-- The struct `ErrorTrackerClient`.  `stopChanClosed` is the state of the
channel `stopChan`; `wg` is the counter of the wait group, that is the number
of batch-processor goroutines that were launched and have not returned. -/
structure ErrorTrackerClient where
  config : ClientConfig
  eventBuilder : EventBuilder
  transport : Transport
  eventQueue : List EventIssue
  isActive : Bool
  isEnabled : Bool
  isProcessing : Bool
  stopChanClosed : Bool
  wg : Nat
deriving DecidableEq, Repr

/-- How a call ends: it returns a value, it panics, or the fuel of the model
ran out before it returned. -/
inductive Run (α : Type) where
  | done (a : α)
  | panic (msg : String)
  | outOfFuel
deriving DecidableEq, Repr

/-- Go `make([]types.EventIssue, 0, n)`: the runtime panics with "makeslice: cap
out of range" when `n` is negative or larger than `maxCap`, the largest
capacity it can allocate for the element type. -/
def makeslicePanics (maxCap n : Int) : Bool := decide (n < 0 ∨ maxCap < n)

/-- The defaulting block of `NewClient`: a field that is zero is set to its
default.  The caller's configuration is updated in place; the result is its new
content. -/
def applyDefaults (config : ClientConfig) : ClientConfig :=
  let config := if config.MaxRetries = 0 then { config with MaxRetries := 3 } else config
  let config := if config.Timeout = 0 then { config with Timeout := 10 * Second } else config
  let config := if config.FlushInterval = 0 then { config with FlushInterval := 5 * Second } else config
  let config := if config.MaxQueueSize = 0 then { config with MaxQueueSize := 50 } else config
  config

/-- The function `NewClient` of `client.go`: validation first, then the
defaults, then the client, whose queue is made with capacity
`config.MaxQueueSize`.  The result is the pair `(client, error)` it returns, or
the panic of `make`; `maxCap` is the largest slice capacity the runtime can
allocate. -/
def NewClient (urlParseErr : String → Bool) (maxCap : Int) (config : ClientConfig) :
    Run (Except String ErrorTrackerClient) :=
  match config.Validate urlParseErr with
  | some err => .done (.error ("invalid config: " ++ err))
  | none =>
    let config := applyDefaults config
    if makeslicePanics maxCap config.MaxQueueSize then .panic "makeslice: cap out of range"
    else
      .done (.ok
        { config := config
          eventBuilder :=
            NewEventBuilder config.App config.Version config.Platform config.LicenseDevice
          transport := NewTransport config
          eventQueue := []
          isActive := false
          isEnabled := config.Enabled
          isProcessing := false
          stopChanClosed := false
          wg := 0 })

/-- The method `startBatchProcessor`: registers one goroutine with the wait
group and launches the periodic flush loop, whose iterations are
`batchProcessorStep`.  The goroutine creates its ticker with
`time.NewTicker(c.config.FlushInterval)`, which needs a positive interval, as
every configuration accepted by `Validate` has. -/
def ErrorTrackerClient.startBatchProcessor (c : ErrorTrackerClient) : ErrorTrackerClient :=
  { c with wg := c.wg + 1 }

/-- The method `Start`. -/
def ErrorTrackerClient.Start (c : ErrorTrackerClient) : ErrorTrackerClient :=
  if c.isActive then c
  else ({ c with isActive := true } : ErrorTrackerClient).startBatchProcessor

/-! ## The registry (`tracker.go`) -/

/-- Assignment `m[k] = v` on a map held as an association list. -/
def mapSet {β : Type} (m : List (String × β)) (k : String) (v : β) : List (String × β) :=
  match m with
  | [] => [(k, v)]
  | (k1, v1) :: rest => if k1 = k then (k, v) :: rest else (k1, v1) :: mapSet rest k v

/-- Lookup `m[k]` on a map held as an association list. -/
def mapGet {β : Type} (m : List (String × β)) (k : String) : Option β :=
  match m with
  | [] => none
  | (k1, v1) :: rest => if k1 = k then some v1 else mapGet rest k

/-- The package-level variables `instances` and `defaultInstance`.  The map is
an association list with at most one entry per name. -/
structure Registry where
  instances : List (String × ErrorTrackerClient)
  defaultInstance : Option ErrorTrackerClient
deriving DecidableEq, Repr

/-- The function `Create` of `tracker.go`.  `name` is the variadic argument.
The registry stores a pointer to the client, so the entry stored before
`client.Start()` is the started client.  The result is what `Create` returns,
or the panic of `NewClient`, and the registry afterwards. -/
def Create (urlParseErr : String → Bool) (maxCap : Int) (config : ClientConfig)
    (name : List String) (r : Registry) : Run (Except String ErrorTrackerClient) × Registry :=
  match NewClient urlParseErr maxCap config with
  | .panic msg => (.panic msg, r)
  | .outOfFuel => (.outOfFuel, r)
  | .done (.error err) => (.done (.error err), r)
  | .done (.ok client) =>
    let started := client.Start
    match name with
    | n :: _ =>
      if n ≠ "" then
        (.done (.ok started), { r with instances := mapSet r.instances n started })
      else if r.defaultInstance = none then
        (.done (.ok started), { r with defaultInstance := some started })
      else (.done (.ok started), r)
    | [] =>
      if r.defaultInstance = none then
        (.done (.ok started), { r with defaultInstance := some started })
      else (.done (.ok started), r)

/-! ## The transport (`core/transport.go`) -/

/-- Left shift `x << s` of a 64-bit signed integer by an unsigned count: a
count of 64 or more gives 0, otherwise the product wraps. -/
def shiftLeft64 (x : Int) (s : Nat) : Int :=
  if 64 ≤ s then 0 else wrapInt64 (x * 2 ^ s)

/-- The method `(*Transport).calculateBackoff`.  The untyped constant `1` of
`1<<uint(attempt)` takes the type `time.Duration`, so the shift and the product
are 64-bit operations. -/
def Transport.calculateBackoff (_t : Transport) (attempt : Int) : Int :=
  let baseDelay := Second
  let maxDelay := 30 * Second
  let delay := wrapInt64 (baseDelay * shiftLeft64 1 (toUint64 attempt))
  if delay > maxDelay then maxDelay else delay

/-- Go's `http.Header`, a `map[string][]string`. -/
abbrev Header := List (String × List String)

/-- Go's `http.Header.Set`: the key is canonicalised by `canon`
(`textproto.CanonicalMIMEHeaderKey`) and its values are replaced by the single
value. -/
def Header.Set (canon : String → String) (h : Header) (key value : String) : Header :=
  mapSet h (canon key) [value]

/-- The part of an `http.Request` that `makeRequest` fills in. -/
structure Request where
  method : String
  url : String
  body : String
  header : Header
deriving DecidableEq, Repr

/-- What happens outside the program during one call of `makeRequest`, in the
order of the calls it makes: `json.Marshal` fails; or it yields `body` and
`http.NewRequest` fails; or the request is built and `client.Do` fails; or a
response with a status code and status text arrives. -/
inductive Attempt where
  | marshalError (msg : String)
  | newRequestError (body : String) (msg : String)
  | doError (body : String) (msg : String)
  | response (body : String) (statusCode : Int) (status : String)
deriving DecidableEq, Repr

/-- The headers `makeRequest` puts on the request: the two defaults, then every
configured header in the order the `range` loop visits the map. -/
def Transport.requestHeader (canon : String → String) (t : Transport) : Header :=
  t.config.Headers.foldl (fun h kv => Header.Set canon h kv.1 kv.2)
    (Header.Set canon (Header.Set canon [] "Content-Type" "application/json")
      "User-Agent" "Royaltics-ErrorTracker-Go/1.0")

/-- The request `makeRequest` builds from the marshalled payload. -/
def Transport.buildRequest (canon : String → String) (t : Transport) (body : String) : Request :=
  { method := "POST", url := t.config.WebhookURL, body := body,
    header := t.requestHeader canon }

/-- The method `(*Transport).makeRequest`: the error it returns and the request
it handed to `client.Do`, if it got that far.  The payload reaches the result
only through `json.Marshal`, whose answer is part of `w`. -/
def Transport.makeRequest (canon : String → String) (t : Transport)
    (_payload : TransportPayload) (w : Attempt) : GoError × Option Request :=
  match w with
  | .marshalError msg => (some ("failed to marshal payload: " ++ msg), none)
  | .newRequestError _ msg => (some ("failed to create request: " ++ msg), none)
  | .doError body msg => (some ("request failed: " ++ msg), some (t.buildRequest canon body))
  | .response body statusCode status =>
    if statusCode < 200 ∨ statusCode ≥ 300 then
      (some ("HTTP " ++ toString statusCode ++ ": " ++ status), some (t.buildRequest canon body))
    else (none, some (t.buildRequest canon body))

/-- What `Send` does that is visible from outside: the `k`-th call of
`makeRequest` (counting from 0), or a `time.Sleep` of `d` nanoseconds. -/
inductive SendEvent where
  | request (k : Nat)
  | sleep (d : Int)
deriving DecidableEq, Repr

/-- The value `Send` returns and what it did, in order. -/
structure SendResult where
  err : GoError
  trace : List SendEvent
deriving DecidableEq, Repr

/-- What one failed iteration of the loop of `Send` does after its request:
it sleeps if `attempt < MaxRetries`. -/
def Transport.afterFailure (t : Transport) (attempt : Int) : List SendEvent :=
  if attempt < t.config.MaxRetries then [.sleep (t.calculateBackoff attempt)] else []

/-- The loop `for attempt := 0; attempt <= t.config.MaxRetries; attempt++` of
`Send`, started at the loop variable `attempt` with `k` requests made so far
and `lastErr` the last error seen.  `world k` is what happens during the
`k`-th request.  The fuel bounds the number of times the loop condition is
evaluated; `none` means the fuel ran out. -/
def Transport.sendLoop (canon : String → String) (t : Transport) (payload : TransportPayload)
    (world : Nat → Attempt) : Nat → Int → Nat → GoError → Option SendResult
  | 0, _, _, _ => none
  | fuel + 1, attempt, k, lastErr =>
    if attempt ≤ t.config.MaxRetries then
      match (t.makeRequest canon payload (world k)).1 with
      | none => some ⟨none, [.request k]⟩
      | some err =>
        (Transport.sendLoop canon t payload world fuel (wrapInt64 (attempt + 1)) (k + 1)
            (some err)).map
          fun r => ⟨r.err, .request k :: t.afterFailure attempt ++ r.trace⟩
    else some ⟨lastErr, []⟩

/-- The method `(*Transport).Send`. -/
def Transport.Send (canon : String → String) (t : Transport) (compressedEvent : String)
    (world : Nat → Attempt) (fuel : Nat) : Option SendResult :=
  let payload : TransportPayload :=
    { Event := compressedEvent
      LicenseID := t.config.LicenseID
      LicenseName := t.config.LicenseName
      LicenseDevice := t.config.LicenseDevice }
  t.sendLoop canon payload world fuel 0 0 none

/-! ## A model of `textproto.CanonicalMIMEHeaderKey` -/

/-- Go `validHeaderFieldByte`: the token characters of RFC 7230. -/
def validHeaderFieldByte (c : Char) : Bool :=
  url.isAlpha c || url.isDigit c ||
  decide (c ∈ ['!', '#', '$', '%', '&', Char.ofNat 39, '*', '+', '-', '.', '^', '_',
    Char.ofNat 96, '|', '~'])

/-- The canonicalising loop: upper case for the first letter and for a letter
after a dash, lower case for the other letters. -/
def canonicalLoop : Bool → List Char → List Char
  | _, [] => []
  | upper, c :: cs =>
    let c1 :=
      if upper && decide ('a'.toNat ≤ c.toNat) && decide (c.toNat ≤ 'z'.toNat) then
        Char.ofNat (c.toNat - 32)
      else if !upper && decide ('A'.toNat ≤ c.toNat) && decide (c.toNat ≤ 'Z'.toNat) then
        Char.ofNat (c.toNat + 32)
      else c
    c1 :: canonicalLoop (c1 = '-') cs

/-- Go `textproto.CanonicalMIMEHeaderKey`: a key with a byte that is not a
token character is returned unchanged. -/
def CanonicalMIMEHeaderKey (s : String) : String :=
  if s.toList.all validHeaderFieldByte then String.mk (canonicalLoop true s.toList) else s

/-! ## Batch extraction (`client.go`) -/

/-- The goroutines that one call of `processBatch` launches, while it waits
for them: those that have not finished yet, each with its position in the
batch and its event (the counter of the `sync.WaitGroup` is their number), the
errors sent to `errChan` so far, and the goroutines that have finished, in the
order in which they did. -/
structure Dispatching where
  running : List (Nat × EventIssue)
  errChan : List String
  finished : List (Nat × EventIssue)
deriving DecidableEq, Repr

/-- The running goroutine at position `j` finishes: its call of `dispatchEvent`
returns, an error is sent to `errChan`, and the deferred `wg.Done()` takes it
off the wait group.  `dispatchEvent k evt` is the value that the call of
`c.dispatchEvent(evt)` made by goroutine number `k` returns. -/
def Dispatching.finish (dispatchEvent : Nat → EventIssue → GoError) (s : Dispatching) (j : Nat) :
    Dispatching :=
  match s.running[j]? with
  | none => s
  | some g =>
    { running := s.running.eraseIdx j
      errChan :=
        match dispatchEvent g.1 g.2 with
        | some err => s.errChan ++ [err]
        | none => s.errChan
      finished := s.finished ++ [g] }

/-- The call `wg.Wait()` of `processBatch`: it returns when no goroutine is
running; until then the goroutines finish one at a time, and `picks step`
selects, among those running, the one that finishes at step number `step`.
The first argument bounds the number of steps. -/
def Dispatching.wait (dispatchEvent : Nat → EventIssue → GoError) (picks : Nat → Nat) :
    Nat → Nat → Dispatching → Dispatching
  | 0, _, s => s
  | n + 1, step, s =>
    if s.running.length = 0 then s
    else
      Dispatching.wait dispatchEvent picks n (step + 1)
        (s.finish dispatchEvent (picks step % s.running.length))

/-- What one call of `processBatch` returns and leaves behind: the error, the
client afterwards, the batch it extracted (empty when the call was a no-op),
and the goroutines whose `dispatchEvent` had returned when `wg.Wait()`
returned, each with its position in the batch and its event, in the order in
which they finished. -/
structure BatchResult where
  err : GoError
  client : ErrorTrackerClient
  batch : List EventIssue
  dispatched : List (Nat × EventIssue)
deriving DecidableEq, Repr

/-- The method `processBatch`, run without interleaving of other goroutines on
the queue.  The loop over the batch launches one goroutine per event;
`dispatchEvent k evt` is the value that `c.dispatchEvent(evt)` returns in the
goroutine launched for position `k` of the batch, so that two equal events can
fare differently, and `picks` is the order in which the goroutines finish.
The loop over `errChan` returns the first error in it.  The result is `none`
when `make` panics on a negative batch size. -/
def ErrorTrackerClient.processBatch (c : ErrorTrackerClient)
    (dispatchEvent : Nat → EventIssue → GoError) (picks : Nat → Nat) : Option BatchResult :=
  if c.eventQueue.length = 0 ∨ c.isProcessing = true then some ⟨none, c, [], []⟩
  else
    let c1 := { c with isProcessing := true }
    let batchSize : Int :=
      if (c1.eventQueue.length : Int) < c1.config.MaxQueueSize then (c1.eventQueue.length : Int)
      else c1.config.MaxQueueSize
    if batchSize < 0 then none
    else
      let batch := c1.eventQueue.take batchSize.toNat
      let c2 := { c1 with eventQueue := c1.eventQueue.drop batchSize.toNat }
      let launched : Dispatching := { running := batch.enum, errChan := [], finished := [] }
      let waited := launched.wait dispatchEvent picks batch.length 0
      let c3 := { c2 with isProcessing := false }
      some ⟨waited.errChan.head?, c3, batch, waited.finished⟩

/-! ## Event construction (`core/event_builder.go`) -/

/-- A non-nil Go `error` value as the event builder sees it: the name of its
dynamic type (`%T`) and the text of `Error()`. -/
structure ErrorValue where
  typeName : String
  message : String
deriving DecidableEq, Repr

/-- What the runtime answers during one call of `Build`: the call-site label
found by `extractCulprit`, the text of `runtime.Stack`, `runtime.GOOS`, the
environment variable HOSTNAME, the fresh UUID and the formatted current time. -/
structure BuildEnv where
  culprit : String
  stack : String
  goos : String
  hostname : String
  uuid : String
  now : String
deriving DecidableEq, Repr

/-- The method `serializeError`. -/
def EventBuilder.serializeError (_eb : EventBuilder) (env : BuildEnv) (err : Option ErrorValue) :
    SerializedError :=
  match err with
  | none => { Name := "UnknownError", Message := "Unknown error", Stack := "", Extra := [] }
  | some e => { Name := e.typeName, Message := e.message, Stack := env.stack, Extra := [] }

/-- The method `extractTags`. -/
def EventBuilder.extractTags (_eb : EventBuilder) (err : Option ErrorValue) : List String :=
  match err with
  | none => []
  | some e => ["error:" ++ e.typeName]

/-- The method `(*EventBuilder).Build`. -/
def EventBuilder.Build (eb : EventBuilder) (env : BuildEnv) (title : String)
    (err : Option ErrorValue) (level : String) (extra : List (String × String)) : EventIssue :=
  let culprit := env.culprit
  let serializedError := eb.serializeError env err
  let tags := eb.extractTags err
  let platform := if eb.platform = "" then env.goos else eb.platform
  let device :=
    if eb.device = "" then (if env.hostname = "" then "unknown" else env.hostname)
    else eb.device
  { EventID := env.uuid
    Title := title
    Level := level
    Event := serializedError
    Timestamp := env.now
    Context :=
      { Culprit := culprit
        Extra := extra
        Platform := platform
        App := eb.app
        Version := eb.version
        Device := device
        Tags := tags } }

/-! ## Ingestion, flush and shutdown (`client.go`)

The methods are run one after the other on the state of one client.  A
goroutine that a method launches (`go c.processBatch()`, the batch processor)
is reported by the method and runs only where a definition says so. -/

/-- The method `enqueue`: the client after the append, and whether
`go c.processBatch()` was launched. -/
def ErrorTrackerClient.enqueue (c : ErrorTrackerClient) (event : EventIssue) :
    ErrorTrackerClient × Bool :=
  let c1 := { c with eventQueue := c.eventQueue ++ [event] }
  let queueLen := c1.eventQueue.length
  (c1, decide ((queueLen : Int) ≥ c1.config.MaxQueueSize))

/-- The method `(*ErrorTrackerClient).Error`: the client afterwards, and
whether a flush was launched. -/
def ErrorTrackerClient.Error (c : ErrorTrackerClient) (env : BuildEnv) (err : Option ErrorValue)
    (level : String) (metadata : List (String × String)) : ErrorTrackerClient × Bool :=
  if !c.isEnabled then (c, false)
  else
    let title :=
      match err with
      | some e => e.message
      | none => "Unknown error"
    let event := c.eventBuilder.Build env title err level metadata
    c.enqueue event

/-- The method `(*ErrorTrackerClient).Event`; `fmt.Errorf("%s", title)` is an
`*errors.errorString` whose text is the title. -/
def ErrorTrackerClient.Event (c : ErrorTrackerClient) (env : BuildEnv) (title : String)
    (level : String) (metadata : List (String × String)) : ErrorTrackerClient × Bool :=
  if !c.isEnabled then (c, false)
  else
    let err : ErrorValue := { typeName := "*errors.errorString", message := title }
    let event := c.eventBuilder.Build env title (some err) level metadata
    c.enqueue event

/-- The method `Pause`. -/
def ErrorTrackerClient.Pause (c : ErrorTrackerClient) : ErrorTrackerClient :=
  { c with isEnabled := false }

/-- The method `Resume`. -/
def ErrorTrackerClient.Resume (c : ErrorTrackerClient) : ErrorTrackerClient :=
  { c with isEnabled := true }

/-- What `ForceFlush` returns and leaves behind: the error, the client
afterwards, and the batch of every `processBatch` call it made, in order. -/
structure FlushResult where
  err : GoError
  client : ErrorTrackerClient
  batches : List (List EventIssue)
deriving DecidableEq, Repr

/-- The method `ForceFlush`, run without interleaving of other goroutines.
`dispatchEvent k evt` is the value `c.dispatchEvent(evt)` returns in the
goroutine number `k` launched from now on, over all the `processBatch` calls
of the loop, and `picks` the finishing choices from now on.  The fuel bounds
the number of times the queue length is read. -/
def ErrorTrackerClient.ForceFlush :
    (Nat → EventIssue → GoError) → (Nat → Nat) → Nat → ErrorTrackerClient → Run FlushResult
  | _, _, 0, _ => .outOfFuel
  | dispatchEvent, picks, fuel + 1, c =>
    if c.eventQueue.length = 0 then .done ⟨none, c, []⟩
    else
      match c.processBatch dispatchEvent picks with
      | none => .panic "makeslice: len out of range"
      | some b =>
        match b.err with
        | some err => .done ⟨some err, b.client, [b.batch]⟩
        | none =>
          match ErrorTrackerClient.ForceFlush (fun k => dispatchEvent (k + b.batch.length))
              (fun k => picks (k + b.batch.length)) fuel b.client with
          | .done r => .done ⟨r.err, r.client, b.batch :: r.batches⟩
          | .panic msg => .panic msg
          | .outOfFuel => .outOfFuel

/-- The calls of `processBatch` that the batch processor makes between
`close(c.stopChan)` and its return: each is an iteration of its loop in which
a tick was pending and `select` took the tick case although the stop case was
ready.  The value `processBatch` returns is dropped there.  The result is
`none` when a call panics, otherwise the client afterwards and what each call
did, in order. -/
def ErrorTrackerClient.racingTicks :
    (Nat → EventIssue → GoError) → (Nat → Nat) → Nat → ErrorTrackerClient →
      Option (ErrorTrackerClient × List BatchResult)
  | _, _, 0, c => some (c, [])
  | dispatchEvent, picks, ticks + 1, c =>
    match c.processBatch dispatchEvent picks with
    | none => none
    | some b =>
      match ErrorTrackerClient.racingTicks (fun k => dispatchEvent (k + b.batch.length))
          (fun k => picks (k + b.batch.length)) ticks b.client with
      | none => none
      | some (c2, bs) => some (c2, b :: bs)

/-- What `Shutdown` returns and leaves behind: the error, the client
afterwards, what the `processBatch` calls of the batch processor did while
`Shutdown` waited for it, and the batch of every `processBatch` call of the
final `ForceFlush`. -/
structure ShutdownResult where
  err : GoError
  client : ErrorTrackerClient
  ticked : List BatchResult
  batches : List (List EventIssue)
deriving DecidableEq, Repr

/-- The method `(*ErrorTrackerClient).Shutdown`.  Closing the closed channel
panics.  `wg.Wait()` returns once every batch processor has taken the stop
case and returned; `ticks` is the number of ticks that raced with the stop
signal and won the `select` before that, which needs a batch processor.
`dispatchEvent` and `picks` number the goroutines and choices from the call of
`Shutdown` on. -/
def ErrorTrackerClient.Shutdown (c : ErrorTrackerClient)
    (dispatchEvent : Nat → EventIssue → GoError) (picks : Nat → Nat) (ticks : Nat)
    (fuel : Nat) : Run ShutdownResult :=
  let c1 := { c with isEnabled := false }
  let c2 := { c1 with isActive := false }
  if c2.stopChanClosed then .panic "close of closed channel"
  else
    let c3 := { c2 with stopChanClosed := true }
    match ErrorTrackerClient.racingTicks dispatchEvent picks (if c3.wg = 0 then 0 else ticks)
        c3 with
    | none => .panic "makeslice: len out of range"
    | some (c4, ticked) =>
      let c5 := { c4 with wg := 0 }
      let launched := (ticked.map (fun b => b.batch.length)).sum
      match ErrorTrackerClient.ForceFlush (fun k => dispatchEvent (k + launched))
          (fun k => picks (k + launched)) fuel c5 with
      | .done r => .done ⟨r.err, r.client, ticked, r.batches⟩
      | .panic msg => .panic msg
      | .outOfFuel => .outOfFuel

/-- The cases of the `select` statement of the batch processor. -/
inductive SelectCase where
  | tick
  | stop
deriving DecidableEq, Repr

/-- Go's `select` on `ticker.C` and `stopChan`: a case that can proceed is
taken, `pick` being the choice of the runtime when both can; `none` when the
goroutine blocks.  A receive from a closed channel can always proceed. -/
def selectCase (tickReady stopChanClosed : Bool) (pick : SelectCase) : Option SelectCase :=
  match tickReady, stopChanClosed with
  | true, true => some pick
  | true, false => some .tick
  | false, true => some .stop
  | false, false => none

/-- What one iteration of the loop of the batch processor does. -/
inductive LoopStep where
  | blocked
  | flushed (c : ErrorTrackerClient)
  | returned (c : ErrorTrackerClient)
  | panicked
deriving DecidableEq, Repr

/-- One iteration of the loop that `startBatchProcessor` launches: on a tick it
calls `processBatch` and goes on, on the stop case it returns and the deferred
`wg.Done()` runs. -/
def ErrorTrackerClient.batchProcessorStep (c : ErrorTrackerClient) (tickReady : Bool)
    (pick : SelectCase) (dispatchEvent : Nat → EventIssue → GoError) (picks : Nat → Nat) :
    LoopStep :=
  match selectCase tickReady c.stopChanClosed pick with
  | none => .blocked
  | some .tick =>
    match c.processBatch dispatchEvent picks with
    | some b => .flushed b.client
    | none => .panicked
  | some .stop => .returned { c with wg := c.wg - 1 }

/-! ## Package-level functions (`tracker.go`) -/

/-- The two errors `Get` returns: "tracker instance %q not found" and "no
default tracker initialized. Call Create() first". -/
inductive GetError where
  | instanceNotFound (name : String)
  | noDefault
deriving DecidableEq, Repr

/-- The function `Get`. -/
def Get (name : List String) (r : Registry) : Except GetError ErrorTrackerClient :=
  let unnamed : Except GetError ErrorTrackerClient :=
    match r.defaultInstance with
    | none => .error .noDefault
    | some d => .ok d
  match name with
  | n :: _ =>
    if n ≠ "" then
      match mapGet r.instances n with
      | none => .error (.instanceNotFound n)
      | some client => .ok client
    else unnamed
  | [] => unnamed

/-- The function `Has`. -/
def Has (name : List String) (r : Registry) : Bool :=
  match name with
  | n :: _ => if n ≠ "" then (mapGet r.instances n).isSome else r.defaultInstance.isSome
  | [] => r.defaultInstance.isSome

/-- The package-level function `Error`: the error it returns and the registry
afterwards (the default client is updated through its pointer). -/
def Error (env : BuildEnv) (err : Option ErrorValue) (level : String)
    (metadata : List (String × String)) (r : Registry) : Option GetError × Registry :=
  match Get [] r with
  | .error e => (some e, r)
  | .ok client => (none, { r with defaultInstance := some (client.Error env err level metadata).1 })

/-- The package-level function `Event`. -/
def Event (env : BuildEnv) (title : String) (level : String)
    (metadata : List (String × String)) (r : Registry) : Option GetError × Registry :=
  match Get [] r with
  | .error e => (some e, r)
  | .ok client =>
    (none, { r with defaultInstance := some (client.Event env title level metadata).1 })

/-- The loop `for _, client := range instances` of the package-level
`Shutdown`, in the order in which it visits the map: the error it stops at, if
any, and the entries with the clients as their `Shutdown` left them.  The
deliveries, finishing choices and racing ticks of the instance named `n` are
`dispatchEvent (some n)`, `picks (some n)` and `ticks (some n)`. -/
def shutdownInstances (dispatchEvent : Option String → Nat → EventIssue → GoError)
    (picks : Option String → Nat → Nat) (ticks : Option String → Nat) (fuel : Nat) :
    List (String × ErrorTrackerClient) → Run (GoError × List (String × ErrorTrackerClient))
  | [] => .done (none, [])
  | (n, client) :: rest =>
    match client.Shutdown (dispatchEvent (some n)) (picks (some n)) (ticks (some n)) fuel with
    | .panic msg => .panic msg
    | .outOfFuel => .outOfFuel
    | .done res =>
      match res.err with
      | some err => .done (some err, (n, res.client) :: rest)
      | none =>
        match shutdownInstances dispatchEvent picks ticks fuel rest with
        | .done (err, rest2) => .done (err, (n, res.client) :: rest2)
        | .panic msg => .panic msg
        | .outOfFuel => .outOfFuel

/-- The part of the package-level `Shutdown` after the default instance. -/
def shutdownNamed (dispatchEvent : Option String → Nat → EventIssue → GoError)
    (picks : Option String → Nat → Nat) (ticks : Option String → Nat) (fuel : Nat)
    (r : Registry) : Run (GoError × Registry) :=
  match shutdownInstances dispatchEvent picks ticks fuel r.instances with
  | .panic msg => .panic msg
  | .outOfFuel => .outOfFuel
  | .done (some err, instances) => .done (some err, { r with instances := instances })
  | .done (none, _) => .done (none, { r with instances := [] })

/-- The package-level function `Shutdown`: the error it returns and the
registry afterwards.  The deliveries, finishing choices and racing ticks of the
default instance are `dispatchEvent none`, `picks none` and `ticks none`. -/
def Shutdown (dispatchEvent : Option String → Nat → EventIssue → GoError)
    (picks : Option String → Nat → Nat) (ticks : Option String → Nat) (fuel : Nat)
    (r : Registry) : Run (GoError × Registry) :=
  match r.defaultInstance with
  | some d =>
    match d.Shutdown (dispatchEvent none) (picks none) (ticks none) fuel with
    | .panic msg => .panic msg
    | .outOfFuel => .outOfFuel
    | .done res =>
      match res.err with
      | some err => .done (some err, { r with defaultInstance := some res.client })
      | none => shutdownNamed dispatchEvent picks ticks fuel { r with defaultInstance := none }
  | none => shutdownNamed dispatchEvent picks ticks fuel r

/-! ## Dispatch and the critical sections of `processBatch` (`client.go`) -/

/-- What happens outside the program during one call of `dispatchEvent`: the
answer of `json.Marshal` in `Stringify`, the answer of
`utils.CompressAndEncode`, and what happens during each request of `Send`. -/
structure DispatchWorld where
  stringify : Except String String
  compress : Except String String
  attempts : Nat → Attempt

/-- The method `dispatchEvent`: the error it returns, or `none` when the fuel
of `Send` ran out.  The event reaches the result only through `Stringify`,
whose answer is part of `w`. -/
def ErrorTrackerClient.dispatchEvent (canon : String → String) (c : ErrorTrackerClient)
    (_event : EventIssue) (w : DispatchWorld) (fuel : Nat) : Option GoError :=
  match w.stringify with
  | .error err => some (some ("failed to stringify event: " ++ err))
  | .ok _ =>
    match w.compress with
    | .error err => some (some ("failed to compress event: " ++ err))
    | .ok compressed =>
      match c.transport.Send canon compressed w.attempts fuel with
      | none => none
      | some r => some r.err

/-- The first critical section of `processBatch`, from `c.queueMu.Lock()` to
the first `Unlock`: `none` when `make` panics, otherwise the client afterwards
and the batch that was extracted, `none` for the early return. -/
def ErrorTrackerClient.flushBegin (c : ErrorTrackerClient) :
    Option (ErrorTrackerClient × Option (List EventIssue)) :=
  if c.eventQueue.length = 0 ∨ c.isProcessing = true then some (c, none)
  else
    let c1 := { c with isProcessing := true }
    let batchSize : Int :=
      if (c1.eventQueue.length : Int) < c1.config.MaxQueueSize then (c1.eventQueue.length : Int)
      else c1.config.MaxQueueSize
    if batchSize < 0 then none
    else
      let batch := c1.eventQueue.take batchSize.toNat
      let c2 := { c1 with eventQueue := c1.eventQueue.drop batchSize.toNat }
      some (c2, some batch)

/-- The second critical section of `processBatch`, which clears the draining
flag after the dispatches have finished. -/
def ErrorTrackerClient.flushEnd (c : ErrorTrackerClient) : ErrorTrackerClient :=
  { c with isProcessing := false }

/-- One client with the `processBatch` calls that are between their two
critical sections, each with the batch it extracted. -/
structure FlushState where
  client : ErrorTrackerClient
  inFlight : List (List EventIssue)
deriving DecidableEq, Repr

/-- The atomic steps of the goroutines that work on one client: a goroutine
runs the first critical section of `processBatch`; the in-flight call number
`i` runs its second critical section; a producer runs `enqueue`; `Pause`;
`Resume`. -/
inductive FlushAction where
  | begin
  | finish (i : Nat)
  | enqueue (event : EventIssue)
  | pause
  | resume
deriving DecidableEq, Repr

/-- One atomic step; `none` when the step panics or is not possible. -/
def flushStep (s : FlushState) : FlushAction → Option FlushState
  | .begin =>
    match s.client.flushBegin with
    | none => none
    | some (c, none) => some { s with client := c }
    | some (c, some batch) => some { client := c, inFlight := s.inFlight ++ [batch] }
  | .finish i =>
    if i < s.inFlight.length then
      some { client := s.client.flushEnd, inFlight := s.inFlight.eraseIdx i }
    else none
  | .enqueue event => some { s with client := (s.client.enqueue event).1 }
  | .pause => some { s with client := s.client.Pause }
  | .resume => some { s with client := s.client.Resume }

/-- A sequence of atomic steps. -/
def flushRun (s : FlushState) : List FlushAction → Option FlushState
  | [] => some s
  | a :: rest =>
    match flushStep s a with
    | none => none
    | some s2 => flushRun s2 rest

/-! ## Configurations used by the tests of the repository -/

/-- The configuration of the test "should set default values"
(`client_test.go`, `tracker_test.go`). -/
def defaultsTestConfig : ClientConfig :=
  { WebhookURL := "https://api.example.com/webhook"
    LicenseID := "test-license"
    LicenseName := ""
    LicenseDevice := "test-device"
    App := ""
    Version := ""
    Platform := ""
    Enabled := true
    MaxRetries := 0
    Timeout := 0
    FlushInterval := 0
    MaxQueueSize := 0
    Headers := [] }

/-- The configuration of the test "should validate valid config"
(`types_test.go`). -/
def validTestConfig : ClientConfig :=
  { defaultsTestConfig with
    Enabled := false
    MaxRetries := 3
    Timeout := 10 * Second
    FlushInterval := 5 * Second
    MaxQueueSize := 50 }

/-- The configuration of the test "should return error for invalid webhookURL"
(`types_test.go`). -/
def invalidURLTestConfig : ClientConfig :=
  { validTestConfig with WebhookURL := "not-a-valid-url" }

/-- The configuration of the tests "should return error for invalid config"
(`client_test.go`, `tracker_test.go`): every field is the zero value. -/
def emptyTestConfig : ClientConfig :=
  { defaultsTestConfig with WebhookURL := "", LicenseID := "", LicenseDevice := "", Enabled := false }

/-- A configuration that passes `Validate` with a retry count of zero. -/
def zeroRetriesConfig : ClientConfig :=
  { validTestConfig with MaxRetries := 0 }

/-! ## Vocabulary for the statements about `Send` -/

/-- An attempt completes with an HTTP status in 200..299. -/
def Attempt.is2xx : Attempt → Bool
  | .response _ statusCode _ => decide (200 ≤ statusCode) && decide (statusCode ≤ 299)
  | _ => false

/-- The payload `Send` builds for an event. -/
def Transport.payload (t : Transport) (compressedEvent : String) : TransportPayload :=
  { Event := compressedEvent
    LicenseID := t.config.LicenseID
    LicenseName := t.config.LicenseName
    LicenseDevice := t.config.LicenseDevice }

/-- The indices of the requests of a trace, in order. -/
def requestsOf (trace : List SendEvent) : List Nat :=
  trace.filterMap fun e => match e with
    | .request k => some k
    | .sleep _ => none

/-- The durations of the sleeps of a trace, in order. -/
def sleepsOf (trace : List SendEvent) : List Int :=
  trace.filterMap fun e => match e with
    | .request _ => none
    | .sleep d => some d

/-- The trace of `n` failed attempts, each followed by its backoff sleep:
request 0, sleep, request 1, sleep, and so on. -/
def Transport.retryTrace (t : Transport) : Nat → List SendEvent
  | 0 => []
  | n + 1 => t.retryTrace n ++ [.request n, .sleep (t.calculateBackoff n)]

/-- What `n` consecutive failed iterations of the loop of `Send` do, from
request index `k` on. -/
def Transport.failedPrefix (t : Transport) : Nat → Nat → List SendEvent
  | _, 0 => []
  | k, n + 1 => .request k :: t.afterFailure k ++ t.failedPrefix (k + 1) n

/-- A transport whose retry ceiling is the largest `int`, 2^63 - 1. -/
def maxIntTransport : Transport :=
  NewTransport { validTestConfig with MaxRetries := 9223372036854775807 }

/-- An endpoint that refuses the first 2^63 requests and answers 200 from then
on. -/
def lateSuccessWorld (k : Nat) : Attempt :=
  if k < 9223372036854775808 then .doError "" "connection refused"
  else .response "" 200 "200 OK"

/-- An endpoint that refuses every request. -/
def refusingWorld (_k : Nat) : Attempt := .doError "" "connection refused"

/-- An endpoint that answers 500 twice and 204 from then on. -/
def thirdTimeWorld (k : Nat) : Attempt :=
  if k < 2 then .response "" 500 "500 Internal Server Error" else .response "" 204 "204 No Content"

/-- A transport whose configured headers contain a Content-Type entry. -/
def shadowingTransport : Transport :=
  NewTransport { validTestConfig with
    Headers := [("X-Custom-Header", "value"), ("Content-Type", "text/plain")] }

/-- The value a request header carries for the key `key`: the last configured
entry whose key has the same canonical form, if there is one. -/
def lastConfigured (canon : String → String) (t : Transport) (key : String) :
    Option (String × String) :=
  t.config.Headers.reverse.find? fun kv => canon kv.1 = canon key

/-- An event with the given identifier and title, all other fields empty. -/
def sampleEvent (id title : String) : EventIssue :=
  { EventID := id, Title := title, Level := "ERROR"
    Event := { Name := "", Message := title, Stack := "", Extra := [] }
    Context := { Culprit := "", Extra := [], Platform := "", App := "", Version := "",
                 Device := "", Tags := [] }
    Timestamp := "" }

/-- A client built from the valid test configuration with MaxQueueSize = 2 and
three queued events. -/
def threeQueuedClient : ErrorTrackerClient :=
  { config := { validTestConfig with MaxQueueSize := 2 }
    eventBuilder := NewEventBuilder "" "" "" "test-device"
    transport := NewTransport { validTestConfig with MaxQueueSize := 2 }
    eventQueue := [sampleEvent "1" "a", sampleEvent "2" "b", sampleEvent "3" "c"]
    isActive := true
    isEnabled := true
    isProcessing := false
    stopChanClosed := false
    wg := 1 }

/-! ## Vocabulary for the statements about ingestion and flushing -/

/-- A call of the ingestion API of one client, with what the runtime answers
to the event builder during the call. -/
inductive Call where
  | error (env : BuildEnv) (err : Option ErrorValue) (level : String)
      (metadata : List (String × String))
  | event (env : BuildEnv) (title : String) (level : String)
      (metadata : List (String × String))
  | pause
  | resume
deriving DecidableEq, Repr

/-- The client after one call; a flush that the call launches does not extract
a batch before the next call. -/
def ErrorTrackerClient.call (c : ErrorTrackerClient) : Call → ErrorTrackerClient
  | .error env err level metadata => (c.Error env err level metadata).1
  | .event env title level metadata => (c.Event env title level metadata).1
  | .pause => c.Pause
  | .resume => c.Resume

/-- The client after a sequence of calls. -/
def ErrorTrackerClient.calls (c : ErrorTrackerClient) (cs : List Call) : ErrorTrackerClient :=
  cs.foldl ErrorTrackerClient.call c

/-- A record call is a call of `Error` or `Event`. -/
def Call.isRecord : Call → Bool
  | .error _ _ _ _ => true
  | .event _ _ _ _ => true
  | .pause => false
  | .resume => false

/-- The event that a record call hands to the queue when it is accepted. -/
def Call.built (eb : EventBuilder) : Call → List EventIssue
  | .error env err level metadata =>
    [eb.Build env (match err with
      | some e => e.message
      | none => "Unknown error") err level metadata]
  | .event env title level metadata =>
    [eb.Build env title (some { typeName := "*errors.errorString", message := title }) level
      metadata]
  | .pause => []
  | .resume => []

/-- The enabled flag after a call, as the specification describes it. -/
def Call.enabledAfter (enabled : Bool) : Call → Bool
  | .pause => false
  | .resume => true
  | _ => enabled

/-- The events of the record calls made while enabled, in call order. -/
def acceptedEvents (eb : EventBuilder) : Bool → List Call → List EventIssue
  | _, [] => []
  | enabled, call :: rest =>
    (if enabled then call.built eb else []) ++ acceptedEvents eb (call.enabledAfter enabled) rest

/-- The number of record calls made while enabled. -/
def acceptedCount : Bool → List Call → Nat
  | _, [] => 0
  | enabled, call :: rest =>
    (if enabled && call.isRecord then 1 else 0) + acceptedCount (call.enabledAfter enabled) rest

/-- The number of batches needed for `n` events in batches of `m`:
ceil(n / m). -/
def batchCount (n m : Nat) : Nat := (n + m - 1) / m

/-- The client `NewClient` builds from the valid test configuration, after
`Start`. -/
def startedTestClient : ErrorTrackerClient :=
  { config := validTestConfig
    eventBuilder := NewEventBuilder "" "" "" "test-device"
    transport := NewTransport validTestConfig
    eventQueue := []
    isActive := true
    isEnabled := false
    isProcessing := false
    stopChanClosed := false
    wg := 1 }

/-- The started test client, enabled and with one queued event. -/
def oneQueuedClient : ErrorTrackerClient :=
  { startedTestClient with isEnabled := true, eventQueue := [sampleEvent "1" "a"] }

/-- The started test client after a `Shutdown` that returned. -/
def stoppedTestClient : ErrorTrackerClient :=
  { startedTestClient with isActive := false, stopChanClosed := true, wg := 0 }

/-- A delivery that always fails. -/
def failingDispatch (_k : Nat) (_ev : EventIssue) : GoError :=
  some "HTTP 500: 500 Internal Server Error"

/-- A delivery that always succeeds. -/
def succeedingDispatch (_k : Nat) (_ev : EventIssue) : GoError := none

/-- Deliveries of which the first two fail and the later ones succeed. -/
def twoFailingDispatch (k : Nat) (_ev : EventIssue) : GoError :=
  if k < 2 then some "HTTP 500: 500 Internal Server Error" else none

/-- The goroutines finish in the order in which they were launched. -/
def launchOrder (_step : Nat) : Nat := 0

/-- At every step the second of the running goroutines finishes, if there is
one. -/
def secondFirst (_step : Nat) : Nat := 1

/-- A registry with a default instance that holds one queued event and a
named instance "x". -/
def twoInstanceRegistry : Registry :=
  { instances := [("x", startedTestClient)], defaultInstance := some oneQueuedClient }

/-- A registry with two idle instances: a default one and one named "x". -/
def idleRegistry : Registry :=
  { instances := [("x", startedTestClient)], defaultInstance := some startedTestClient }

/-- A registry with a named instance and no default instance. -/
def namedOnlyRegistry : Registry :=
  { instances := [("x", startedTestClient)], defaultInstance := none }

/-- The empty registry. -/
def emptyRegistry : Registry := { instances := [], defaultInstance := none }

/-- The answers of the runtime used in the examples. -/
def sampleBuildEnv : BuildEnv :=
  { culprit := "main.main:10", stack := "", goos := "linux", hostname := "", uuid := "u-1",
    now := "2026-01-01T00:00:00Z" }

/-- An endpoint that refuses every request of a dispatch, after a successful
`Stringify` and `CompressAndEncode`. -/
def refusingDispatchWorld : DispatchWorld :=
  { stringify := .ok "{}", compress := .ok "H4sIAAAAAAAA", attempts := refusingWorld }

/-- An endpoint that accepts every request of a dispatch. -/
def acceptingDispatchWorld : DispatchWorld :=
  { stringify := .ok "{}", compress := .ok "H4sIAAAAAAAA"
    attempts := fun _ => .response "" 200 "200 OK" }

/-- A client with MaxQueueSize 2 whose queue holds the same event twice. -/
def twinQueuedClient : ErrorTrackerClient :=
  { threeQueuedClient with eventQueue := [sampleEvent "1" "a", sampleEvent "1" "a"] }

/-- The dispatch outcomes of a run in which the endpoint accepts the request of
the first goroutine and refuses every request of the others. -/
def twinDispatch (k : Nat) (ev : EventIssue) : GoError :=
  (twinQueuedClient.dispatchEvent CanonicalMIMEHeaderKey ev
    (if k = 0 then acceptingDispatchWorld else refusingDispatchWorld) 5).getD none

/-- The valid test configuration with the largest queue size an `int` holds. -/
def hugeQueueConfig : ClientConfig :=
  { validTestConfig with MaxQueueSize := 9223372036854775807 }

/-- The started test client with MaxQueueSize 2, enabled, and an empty queue. -/
def sizeTwoClient : ErrorTrackerClient :=
  { threeQueuedClient with eventQueue := [] }

/-! ## Theorems -/

/-- C1 (evaluation of the code): on the configuration of the test "should set
default values", whose retry count, timeout, flush interval and queue size are
all zero, `NewClient` returns the validation error for the timeout and no
client, whatever the runtime can allocate; the defaults are never applied. -/
theorem NewClient_defaultsTestConfig_fails (maxCap : Int) :
    NewClient urlParseErr maxCap defaultsTestConfig =
      .done (.error "invalid config: timeout must be between 1s and 60s") := by
  have hv : defaultsTestConfig.Validate urlParseErr =
      some "timeout must be between 1s and 60s" := by decide
  simp only [NewClient, hv]
  rfl

/-- The conditions under which `Validate` returns nil. -/
theorem validate_nil_conditions (urlParseErr : String → Bool) (c : ClientConfig) :
    c.Validate urlParseErr = none ↔
      (c.WebhookURL ≠ "" ∧ urlParseErr c.WebhookURL = false) ∧
      c.LicenseID ≠ "" ∧ c.LicenseDevice ≠ "" ∧
      (0 ≤ c.MaxRetries ∧ c.MaxRetries ≤ 10) ∧
      (1000000000 ≤ c.Timeout ∧ c.Timeout ≤ 60000000000) ∧
      100000000 ≤ c.FlushInterval ∧
      1 ≤ c.MaxQueueSize := by
  unfold ClientConfig.Validate
  simp only [Second, Minute, Millisecond]
  constructor
  · intro h
    split_ifs at h with h1 h2 h3 h4 h5 h6 h7 h8
    simp only [Bool.not_eq_true] at h2
    refine ⟨⟨h1, h2⟩, h3, h4, ?_, ?_, ?_, ?_⟩ <;> omega
  · rintro ⟨⟨h1, h2⟩, h3, h4, h5, h6, h7, h8⟩
    rw [if_neg h1, if_neg (by simp [h2]), if_neg h3, if_neg h4, if_neg (by omega),
      if_neg (by omega), if_neg (by omega), if_neg (by omega)]

/-- C2: `Validate` returns no error exactly when the webhook URL is non-empty
and `url.Parse` accepts it, both licence identifiers are non-empty, the retry
count is in 0..10, the timeout in 1s..60s, the flush interval at least 100ms
and the queue size at least 1, all bounds inclusive; and the result, error text
included, does not change when LicenseName, App, Version, Platform, Headers and
Enabled are replaced by anything else. -/
theorem Validate_eq_none_iff (urlParseErr : String → Bool) (c : ClientConfig) :
    (c.Validate urlParseErr = none ↔
      (c.WebhookURL ≠ "" ∧ urlParseErr c.WebhookURL = false) ∧
      c.LicenseID ≠ "" ∧ c.LicenseDevice ≠ "" ∧
      (0 ≤ c.MaxRetries ∧ c.MaxRetries ≤ 10) ∧
      (1000000000 ≤ c.Timeout ∧ c.Timeout ≤ 60000000000) ∧
      100000000 ≤ c.FlushInterval ∧
      1 ≤ c.MaxQueueSize) ∧
    ∀ (licenseName app version platform : String) (headers : List (String × String))
      (enabled : Bool),
      ClientConfig.Validate urlParseErr
        { c with LicenseName := licenseName, App := app, Version := version,
                 Platform := platform, Headers := headers, Enabled := enabled } =
      c.Validate urlParseErr :=
  ⟨validate_nil_conditions urlParseErr c, fun _ _ _ _ _ _ => rfl⟩

/-- C3 (evaluation of the code): on the configuration of the test "should
return error for invalid webhookURL", whose URL is "not-a-valid-url",
`url.Parse` returns no error (the text is a relative reference) and `Validate`
returns nil. -/
theorem Validate_invalidURLTestConfig_accepts :
    url.Parse "not-a-valid-url" = none ∧
      invalidURLTestConfig.Validate urlParseErr = none := by
  decide

/-- C4 (counterexample): a configuration with MaxRetries = 0 passes `Validate`,
yet the client built from it has MaxRetries = 3, not the supplied 0; and a
configuration with MaxQueueSize = 9223372036854775807 passes `Validate`, yet
`NewClient` panics when it makes the queue. -/
theorem NewClient_zeroRetries_replaced :
    (zeroRetriesConfig.MaxRetries = 0 ∧
      zeroRetriesConfig.Validate urlParseErr = none ∧
      ∃ cl, NewClient urlParseErr maxSliceCap zeroRetriesConfig = .done (.ok cl) ∧
        cl.config.MaxRetries = 3) ∧
    (hugeQueueConfig.Validate urlParseErr = none ∧
      NewClient urlParseErr maxSliceCap hugeQueueConfig =
        .panic "makeslice: cap out of range") :=
  ⟨⟨by decide, by decide, _, rfl, rfl⟩, by decide, by decide⟩

/-- C4 (amended): for every configuration that passes `Validate` and whose
MaxQueueSize is a capacity the runtime can allocate, `NewClient` succeeds and
the client's configuration is the supplied one with the same Timeout,
FlushInterval and MaxQueueSize, and with the supplied MaxRetries when it is not
0; a supplied MaxRetries of 0 is replaced by 3.  For a larger MaxQueueSize
`NewClient` panics. -/
theorem NewClient_keeps_custom_values (urlParseErr : String → Bool) (maxCap : Int)
    (c : ClientConfig) (hv : c.Validate urlParseErr = none) :
    (c.MaxQueueSize ≤ maxCap →
      ∃ cl, NewClient urlParseErr maxCap c = .done (.ok cl) ∧
        cl.config = { c with MaxRetries := if c.MaxRetries = 0 then 3 else c.MaxRetries } ∧
        cl.config.MaxRetries = (if c.MaxRetries = 0 then 3 else c.MaxRetries) ∧
        cl.config.Timeout = c.Timeout ∧
        cl.config.FlushInterval = c.FlushInterval ∧
        cl.config.MaxQueueSize = c.MaxQueueSize) ∧
    (maxCap < c.MaxQueueSize →
      NewClient urlParseErr maxCap c = .panic "makeslice: cap out of range") := by
  have h := (validate_nil_conditions urlParseErr c).mp hv
  obtain ⟨-, -, -, -, ⟨ht, -⟩, hf, hq⟩ := h
  have ht0 : c.Timeout ≠ 0 := by omega
  have hf0 : c.FlushInterval ≠ 0 := by omega
  have hq0 : c.MaxQueueSize ≠ 0 := by omega
  have hd : applyDefaults c =
      { c with MaxRetries := if c.MaxRetries = 0 then 3 else c.MaxRetries } := by
    unfold applyDefaults
    by_cases hr : c.MaxRetries = 0
    · simp [hr, ht0, hf0, hq0]
    · simp [hr, ht0, hf0, hq0]
  have hsize : (applyDefaults c).MaxQueueSize = c.MaxQueueSize := by rw [hd]
  constructor
  · intro hcap
    have hmk : makeslicePanics maxCap (applyDefaults c).MaxQueueSize = false := by
      rw [hsize]
      simp only [makeslicePanics, decide_eq_false_iff_not]
      omega
    refine ⟨_, by simp only [NewClient, hv, hmk]; rfl, ?_⟩
    simp [hd]
  · intro hcap
    have hmk : makeslicePanics maxCap (applyDefaults c).MaxQueueSize = true := by
      rw [hsize]
      simp only [makeslicePanics, decide_eq_true_eq]
      omega
    simp only [NewClient, hv, hmk]
    rfl

/-- Witness of `NewClient_keeps_custom_values` at the configuration of the
test "should validate valid config". -/
theorem NewClient_keeps_custom_values_witness :
    (validTestConfig.Validate urlParseErr = none ∧ validTestConfig.MaxQueueSize ≤ maxSliceCap) ∧
    ∃ cl, NewClient urlParseErr maxSliceCap validTestConfig = .done (.ok cl) ∧
      cl.config = { validTestConfig with
        MaxRetries := if validTestConfig.MaxRetries = 0 then 3 else validTestConfig.MaxRetries } ∧
      cl.config.MaxRetries =
        (if validTestConfig.MaxRetries = 0 then 3 else validTestConfig.MaxRetries) ∧
      cl.config.Timeout = validTestConfig.Timeout ∧
      cl.config.FlushInterval = validTestConfig.FlushInterval ∧
      cl.config.MaxQueueSize = validTestConfig.MaxQueueSize :=
  ⟨⟨by decide, by decide⟩,
    (NewClient_keeps_custom_values urlParseErr maxSliceCap validTestConfig (by decide)).1
      (by decide)⟩

/-- C5: for every configuration that `Validate` rejects, `NewClient` returns an
error and no client, and `Create`, with any name argument and on any registry,
returns an error, no client, and the registry it was given: the default
client, the map and every stored client (its wait-group counter of running
loops included) are unchanged. -/
theorem Create_invalid_config (urlParseErr : String → Bool) (maxCap : Int) (c : ClientConfig)
    (name : List String) (r : Registry) (hv : c.Validate urlParseErr ≠ none) :
    (∃ err, NewClient urlParseErr maxCap c = .done (.error err)) ∧
    (∃ err, Create urlParseErr maxCap c name r = (.done (.error err), r)) ∧
    (Create urlParseErr maxCap c name r).2 = r := by
  obtain ⟨e, he⟩ := Option.ne_none_iff_exists'.mp hv
  have hn : NewClient urlParseErr maxCap c = .done (.error ("invalid config: " ++ e)) := by
    simp only [NewClient, he]
  refine ⟨⟨_, hn⟩, ⟨"invalid config: " ++ e, ?_⟩, ?_⟩
  · simp only [Create, hn]
  · simp only [Create, hn]

/-- Witness of `Create_invalid_config` at the all-zero configuration of the
test "should return error for invalid config", with and on the empty
registry. -/
theorem Create_invalid_config_witness :
    emptyTestConfig.Validate urlParseErr ≠ none ∧
    ((∃ err, NewClient urlParseErr maxSliceCap emptyTestConfig = .done (.error err)) ∧
    (∃ err, Create urlParseErr maxSliceCap emptyTestConfig [] ⟨[], none⟩ =
      (.done (.error err), ⟨[], none⟩)) ∧
    (Create urlParseErr maxSliceCap emptyTestConfig [] ⟨[], none⟩).2 = ⟨[], none⟩) :=
  ⟨by decide,
    Create_invalid_config urlParseErr maxSliceCap emptyTestConfig [] ⟨[], none⟩ (by decide)⟩

/-- C6: for every attempt index that occurs under a validated configuration
(0 <= i < MaxRetries <= 10), `calculateBackoff i` is exactly
min(1s * 2^i, 30s): 1s, 2s, 4s, 8s, 16s for i = 0..4 and 30s for i = 5..9.
The value is a function of `i` alone, so there is no jitter. -/
theorem calculateBackoff_validated (t : Transport) (i : Int) (h0 : 0 ≤ i)
    (hi : i < t.config.MaxRetries) (hmax : t.config.MaxRetries ≤ 10) :
    t.calculateBackoff i = min (1000000000 * 2 ^ i.toNat) 30000000000 ∧
    t.calculateBackoff i =
      [1000000000, 2000000000, 4000000000, 8000000000, 16000000000, 30000000000,
        30000000000, 30000000000, 30000000000, 30000000000].getD i.toNat 0 ∧
    (5 ≤ i → t.calculateBackoff i = 30 * Second) := by
  have h9 : i ≤ 9 := by omega
  have hfree : ∀ j : Int,
      t.calculateBackoff j = (NewTransport validTestConfig).calculateBackoff j := fun _ => rfl
  simp only [hfree]
  clear hi hmax hfree
  interval_cases i <;> decide

/-- Witness of `calculateBackoff_validated`: attempt 2 under MaxRetries = 3. -/
theorem calculateBackoff_validated_witness :
    (NewTransport validTestConfig).calculateBackoff 2 = min (1000000000 * 2 ^ (2 : Int).toNat) 30000000000 ∧
    (NewTransport validTestConfig).calculateBackoff 2 =
      [1000000000, 2000000000, 4000000000, 8000000000, 16000000000, 30000000000,
        30000000000, 30000000000, 30000000000, 30000000000].getD (2 : Int).toNat 0 ∧
    ((5 : Int) ≤ 2 → (NewTransport validTestConfig).calculateBackoff 2 = 30 * Second) :=
  calculateBackoff_validated (NewTransport validTestConfig) 2 (by decide) (by decide) (by decide)

/-! ### The retry loop -/

/-- A value in the 64-bit range is not changed by the wrap-around. -/
theorem wrapInt64_of_mem (x : Int) (h1 : -9223372036854775808 ≤ x)
    (h2 : x ≤ 9223372036854775807) : wrapInt64 x = x := by
  unfold wrapInt64
  norm_num
  omega

/-- `makeRequest` returns nil exactly for a response with a status in 200..299. -/
theorem makeRequest_nil_iff (canon : String → String) (t : Transport) (p : TransportPayload)
    (w : Attempt) : (t.makeRequest canon p w).1 = none ↔ w.is2xx = true := by
  cases w with
  | marshalError msg => simp [Transport.makeRequest, Attempt.is2xx]
  | newRequestError body msg => simp [Transport.makeRequest, Attempt.is2xx]
  | doError body msg => simp [Transport.makeRequest, Attempt.is2xx]
  | response body statusCode status =>
    simp only [Transport.makeRequest, Attempt.is2xx]
    split_ifs with h
    · simp; omega
    · simp; omega

/-- Prepending the empty trace changes nothing. -/
theorem map_prepend_nil (x : Option SendResult) :
    x.map (fun r => (⟨r.err, [] ++ r.trace⟩ : SendResult)) = x := by
  cases x <;> rfl

/-- Loop invariant of `Send`: `n` consecutive failed attempts from request index
`k` on, none of which makes the loop variable overflow, consume `n` units of
fuel, leave the loop at index `k + n` and contribute `failedPrefix k n` to the
trace. -/
theorem sendLoop_failedPrefix (canon : String → String) (t : Transport) (p : TransportPayload)
    (world : Nat → Attempt) :
    ∀ (n fuel k : Nat) (lastErr : GoError),
      (∀ j, k ≤ j → j < k + n → (world j).is2xx = false) →
      ((k + n : Nat) : Int) ≤ t.config.MaxRetries + 1 →
      ((k + n : Nat) : Int) ≤ 9223372036854775807 →
      t.sendLoop canon p world (fuel + n) k k lastErr =
        (t.sendLoop canon p world fuel ((k + n : Nat) : Int) (k + n)
          (if n = 0 then lastErr else (t.makeRequest canon p (world (k + n - 1))).1)).map
          fun r => ⟨r.err, t.failedPrefix k n ++ r.trace⟩ := by
  intro n
  induction n with
  | zero =>
    intro fuel k lastErr _ _ _
    simp only [Nat.add_zero, if_true, Transport.failedPrefix]
    exact (map_prepend_nil _).symm
  | succ n ih =>
    intro fuel k lastErr hfail hle hmax
    have hk : (world k).is2xx = false := hfail k (le_refl _) (by omega)
    have hreq : (t.makeRequest canon p (world k)).1 ≠ none := by
      rw [Ne, makeRequest_nil_iff]; simp [hk]
    obtain ⟨e, he⟩ := Option.ne_none_iff_exists'.mp hreq
    have hcond : (k : Int) ≤ t.config.MaxRetries := by push_cast at hle; omega
    have hwrap : wrapInt64 ((k : Int) + 1) = ((k + 1 : Nat) : Int) := by
      rw [wrapInt64_of_mem] <;> push_cast at hmax ⊢ <;> omega
    have hstep : t.sendLoop canon p world (fuel + (n + 1)) k k lastErr =
        (t.sendLoop canon p world (fuel + n) ((k + 1 : Nat) : Int) (k + 1) (some e)).map
          fun r => ⟨r.err, .request k :: t.afterFailure k ++ r.trace⟩ := by
      rw [show fuel + (n + 1) = (fuel + n) + 1 from rfl, Transport.sendLoop, if_pos hcond]
      simp only [he, hwrap]
    rw [hstep, ih fuel (k + 1) (some e) (fun j h1 h2 => hfail j (by omega) (by omega))
      (by push_cast at hle ⊢; omega) (by push_cast at hmax ⊢; omega)]
    have hidx : k + 1 + n = k + (n + 1) := by omega
    have hlast : (if n = 0 then some e else (t.makeRequest canon p (world (k + 1 + n - 1))).1) =
        (t.makeRequest canon p (world (k + (n + 1) - 1))).1 := by
      by_cases hn : n = 0
      · subst hn; simp [he]
      · simp only [if_neg hn, hidx]
    rw [hlast, hidx]
    have hf : ((fun r : SendResult =>
          (⟨r.err, .request k :: t.afterFailure k ++ r.trace⟩ : SendResult)) ∘
        fun r : SendResult => (⟨r.err, t.failedPrefix (k + 1) n ++ r.trace⟩ : SendResult)) =
        fun r : SendResult => ⟨r.err, t.failedPrefix k (n + 1) ++ r.trace⟩ := by
      funext r
      simp [Function.comp, Transport.failedPrefix]
    rw [Option.map_map, hf, if_neg (Nat.succ_ne_zero n)]

/-- The last of `n + 1` failed iterations, split off. -/
theorem failedPrefix_snoc (t : Transport) :
    ∀ (n k : Nat), t.failedPrefix k (n + 1) =
      t.failedPrefix k n ++ (.request (k + n) :: t.afterFailure ((k + n : Nat) : Int)) := by
  intro n
  induction n with
  | zero => intro k; simp [Transport.failedPrefix]
  | succ n ih =>
    intro k
    rw [Transport.failedPrefix, ih (k + 1)]
    have h : k + 1 + n = k + (n + 1) := by omega
    simp [Transport.failedPrefix, h]

/-- Below the retry ceiling every failed iteration sleeps. -/
theorem failedPrefix_eq_retryTrace (t : Transport) :
    ∀ n : Nat, (n : Int) ≤ t.config.MaxRetries → t.failedPrefix 0 n = t.retryTrace n := by
  intro n
  induction n with
  | zero => intro _; rfl
  | succ n ih =>
    intro h
    have hlt : ((0 + n : Nat) : Int) < t.config.MaxRetries := by push_cast at h ⊢; omega
    rw [failedPrefix_snoc, ih (by push_cast at h ⊢; omega), Transport.retryTrace,
      Transport.afterFailure, if_pos hlt]
    simp

/-- The requests of `retryTrace n` are 0, 1, ..., n - 1. -/
theorem requestsOf_retryTrace (t : Transport) :
    ∀ n : Nat, requestsOf (t.retryTrace n) = List.range n := by
  intro n
  induction n with
  | zero => rfl
  | succ n ih =>
    rw [Transport.retryTrace, requestsOf, List.filterMap_append, ← requestsOf, ih,
      List.range_succ]
    rfl

/-- The sleeps of `retryTrace n` are the backoffs of 0, 1, ..., n - 1. -/
theorem sleepsOf_retryTrace (t : Transport) :
    ∀ n : Nat, sleepsOf (t.retryTrace n) =
      (List.range n).map fun (k : Nat) => t.calculateBackoff (k : Int) := by
  intro n
  induction n with
  | zero => rfl
  | succ n ih =>
    rw [Transport.retryTrace, sleepsOf, List.filterMap_append, ← sleepsOf, ih,
      List.range_succ, List.map_append]
    rfl

/-- When the attempts 0..MaxRetries all fail, `Send` makes them all and returns
the error of the last one. -/
theorem Send_exhausted (canon : String → String) (t : Transport) (ev : String)
    (world : Nat → Attempt) (fuel : Nat)
    (h0 : 0 ≤ t.config.MaxRetries) (hmax : t.config.MaxRetries < 9223372036854775807)
    (hfail : ∀ j : Nat, (j : Int) ≤ t.config.MaxRetries → (world j).is2xx = false)
    (hfuel : t.config.MaxRetries.toNat + 2 ≤ fuel) :
    t.Send canon ev world fuel =
      some ⟨(t.makeRequest canon (t.payload ev) (world t.config.MaxRetries.toNat)).1,
        t.retryTrace t.config.MaxRetries.toNat ++ [.request t.config.MaxRetries.toNat]⟩ := by
  obtain ⟨f, rfl⟩ : ∃ f, fuel = (f + 1) + (t.config.MaxRetries.toNat + 1) :=
    ⟨fuel - (t.config.MaxRetries.toNat + 2), by omega⟩
  have hN : ((t.config.MaxRetries.toNat : Nat) : Int) = t.config.MaxRetries := Int.toNat_of_nonneg h0
  have hpre := sendLoop_failedPrefix canon t (t.payload ev) world (t.config.MaxRetries.toNat + 1)
    (f + 1) 0 none (fun j _ h2 => hfail j (by omega)) (by push_cast; omega) (by push_cast; omega)
  have hexit : ¬ (((0 + (t.config.MaxRetries.toNat + 1) : Nat) : Int) ≤ t.config.MaxRetries) := by
    push_cast; omega
  have hafter : t.afterFailure ((0 + t.config.MaxRetries.toNat : Nat) : Int) = [] := by
    rw [Transport.afterFailure, if_neg (by push_cast; omega)]
  show t.sendLoop canon (t.payload ev) world _ ((0 : Nat) : Int) 0 none = _
  rw [hpre, Transport.sendLoop, if_neg hexit, failedPrefix_snoc,
    failedPrefix_eq_retryTrace t _ (le_of_eq hN), hafter]
  simp

/-- When attempt `k` is the first to succeed, `Send` stops right after it. -/
theorem Send_first_success (canon : String → String) (t : Transport) (ev : String)
    (world : Nat → Attempt) (fuel k : Nat)
    (hk : (k : Int) ≤ t.config.MaxRetries) (hmax : t.config.MaxRetries ≤ 9223372036854775807)
    (hfail : ∀ j : Nat, j < k → (world j).is2xx = false) (hsucc : (world k).is2xx = true)
    (hfuel : k + 1 ≤ fuel) :
    t.Send canon ev world fuel = some ⟨none, t.retryTrace k ++ [.request k]⟩ := by
  obtain ⟨f, rfl⟩ : ∃ f, fuel = (f + 1) + k := ⟨fuel - (k + 1), by omega⟩
  have hpre := sendLoop_failedPrefix canon t (t.payload ev) world k (f + 1) 0 none
    (fun j _ h2 => hfail j (by omega)) (by push_cast; omega) (by push_cast; omega)
  have hcond : ((0 + k : Nat) : Int) ≤ t.config.MaxRetries := by push_cast; omega
  have hreq : (t.makeRequest canon (t.payload ev) (world (0 + k))).1 = none := by
    rw [makeRequest_nil_iff, Nat.zero_add]; exact hsucc
  show t.sendLoop canon (t.payload ev) world _ ((0 : Nat) : Int) 0 none = _
  rw [hpre, Transport.sendLoop, if_pos hcond]
  simp only [Nat.zero_add] at hreq
  simp only [hreq, Option.map_some', failedPrefix_eq_retryTrace t k hk, Nat.zero_add]

/-- C7: against an endpoint that fails on every attempt, with 0 <= MaxRetries
<= 10 and enough fuel for the loop, `Send` returns; it makes exactly
MaxRetries+1 requests (indices 0..MaxRetries), sleeps exactly MaxRetries times,
the sleep after the failed request k being `calculateBackoff k`, with nothing
after the last request, and returns the non-nil error of the last request.
With MaxRetries = 3 that is four requests separated by 1s, 2s and 4s. -/
theorem Send_always_failing (canon : String → String) (t : Transport) (ev : String)
    (world : Nat → Attempt) (fuel : Nat)
    (h0 : 0 ≤ t.config.MaxRetries) (h10 : t.config.MaxRetries ≤ 10)
    (hfail : ∀ k, (world k).is2xx = false)
    (hfuel : t.config.MaxRetries.toNat + 2 ≤ fuel) :
    ∃ r, t.Send canon ev world fuel = some r ∧
      r.trace = t.retryTrace t.config.MaxRetries.toNat ++ [.request t.config.MaxRetries.toNat] ∧
      requestsOf r.trace = List.range (t.config.MaxRetries.toNat + 1) ∧
      (requestsOf r.trace).length = t.config.MaxRetries.toNat + 1 ∧
      sleepsOf r.trace =
        (List.range t.config.MaxRetries.toNat).map (fun (k : Nat) => t.calculateBackoff (k : Int)) ∧
      (sleepsOf r.trace).length = t.config.MaxRetries.toNat ∧
      r.err = (t.makeRequest canon (t.payload ev) (world t.config.MaxRetries.toNat)).1 ∧
      r.err ≠ none ∧
      (t.config.MaxRetries = 3 →
        r.trace = [.request 0, .sleep 1000000000, .request 1, .sleep 2000000000,
          .request 2, .sleep 4000000000, .request 3]) := by
  refine ⟨_, Send_exhausted canon t ev world fuel h0 (by omega) (fun j _ => hfail j) hfuel, ?_⟩
  have hreq : requestsOf (t.retryTrace t.config.MaxRetries.toNat ++
      [.request t.config.MaxRetries.toNat]) = List.range (t.config.MaxRetries.toNat + 1) := by
    rw [requestsOf, List.filterMap_append, ← requestsOf, requestsOf_retryTrace, List.range_succ]
    rfl
  have hsl : sleepsOf (t.retryTrace t.config.MaxRetries.toNat ++
      [.request t.config.MaxRetries.toNat]) =
      (List.range t.config.MaxRetries.toNat).map
        (fun (k : Nat) => t.calculateBackoff (k : Int)) := by
    rw [sleepsOf, List.filterMap_append, ← sleepsOf, sleepsOf_retryTrace]
    simp
  refine ⟨rfl, hreq, by rw [hreq, List.length_range], hsl, by rw [hsl]; simp, rfl, ?_, ?_⟩
  · rw [Ne, makeRequest_nil_iff]; simp [hfail]
  · intro h3
    have hN : t.config.MaxRetries.toNat = 3 := by omega
    simp only [hN]
    rfl

/-- Witness of `Send_always_failing`: MaxRetries = 3 and an endpoint that
refuses every request; four requests separated by 1s, 2s and 4s, and the error
of the last one. -/
theorem Send_always_failing_witness :
    (0 ≤ (NewTransport validTestConfig).config.MaxRetries ∧
      (NewTransport validTestConfig).config.MaxRetries ≤ 10) ∧
    (NewTransport validTestConfig).Send CanonicalMIMEHeaderKey "e" refusingWorld 5 =
      some ⟨some "request failed: connection refused",
        [.request 0, .sleep 1000000000, .request 1, .sleep 2000000000,
          .request 2, .sleep 4000000000, .request 3]⟩ := by
  obtain ⟨r, hr, -, -, -, -, -, herr, -, h3⟩ :=
    Send_always_failing CanonicalMIMEHeaderKey (NewTransport validTestConfig) "e" refusingWorld 5
      (by decide) (by decide) (fun _ => rfl) (by decide)
  refine ⟨by decide, ?_⟩
  have ht := h3 rfl
  rw [hr]
  cases r
  simp only at ht herr
  rw [ht, herr]
  rfl

/-- C8 (counterexample): with MaxRetries = 2^63 - 1, the largest `int`, the
loop variable overflows after the last permitted attempt and the loop goes on;
against an endpoint whose first 2^63 answers are failures and whose next answer
is 200, `Send` returns nil although none of the first MaxRetries+1 attempts
succeeded. -/
theorem Send_maxInt_retries_late_success :
    0 ≤ maxIntTransport.config.MaxRetries ∧
    (∀ k : Nat, (k : Int) ≤ maxIntTransport.config.MaxRetries →
      (lateSuccessWorld k).is2xx = false) ∧
    ∃ fuel r, maxIntTransport.Send CanonicalMIMEHeaderKey "" lateSuccessWorld fuel = some r ∧
      r.err = none := by
  have hM : maxIntTransport.config.MaxRetries = 9223372036854775807 := rfl
  refine ⟨by rw [hM]; norm_num, ?_, 2 + 9223372036854775807, ?_⟩
  · intro k hk
    rw [hM] at hk
    have hlt : k < 9223372036854775808 := by omega
    simp [lateSuccessWorld, hlt, Attempt.is2xx]
  · have hpre := sendLoop_failedPrefix CanonicalMIMEHeaderKey maxIntTransport
      (maxIntTransport.payload "") lateSuccessWorld 9223372036854775807 2 0 none
      (fun j _ h2 => by
        have hlt : j < 9223372036854775808 := by omega
        simp [lateSuccessWorld, hlt, Attempt.is2xx])
      (by rw [hM]; norm_num) (by norm_num)
    have hlast : (maxIntTransport.makeRequest CanonicalMIMEHeaderKey (maxIntTransport.payload "")
        (lateSuccessWorld 9223372036854775807)).1 = some "request failed: connection refused" := by
      simp [lateSuccessWorld, Transport.makeRequest]
    have hnext : (maxIntTransport.makeRequest CanonicalMIMEHeaderKey (maxIntTransport.payload "")
        (lateSuccessWorld (9223372036854775807 + 1))).1 = none := by
      simp [lateSuccessWorld, Transport.makeRequest]
    have hwrap : wrapInt64 (9223372036854775807 + 1) = -9223372036854775808 := by
      unfold wrapInt64; norm_num
    have hrun : maxIntTransport.Send CanonicalMIMEHeaderKey "" lateSuccessWorld
        (2 + 9223372036854775807) =
        (maxIntTransport.sendLoop CanonicalMIMEHeaderKey (maxIntTransport.payload "")
          lateSuccessWorld (1 + 1) 9223372036854775807 9223372036854775807
          (maxIntTransport.makeRequest CanonicalMIMEHeaderKey (maxIntTransport.payload "")
            (lateSuccessWorld (9223372036854775807 - 1))).1).map
          fun r => ⟨r.err, maxIntTransport.failedPrefix 0 9223372036854775807 ++ r.trace⟩ := by
      show maxIntTransport.sendLoop CanonicalMIMEHeaderKey (maxIntTransport.payload "")
        lateSuccessWorld (2 + 9223372036854775807) ((0 : Nat) : Int) 0 none = _
      rw [hpre]
      simp
    rw [hrun, Transport.sendLoop, if_pos (by rw [hM]), hlast]
    simp only []
    rw [hwrap, Transport.sendLoop, if_pos (by rw [hM]; norm_num), hnext]
    exact ⟨_, rfl, rfl⟩

/-- C8 (amended): for every transport with 0 <= MaxRetries < 2^63 - 1, every
sequence of per-attempt outcomes and enough fuel for the loop, `Send` returns;
an attempt fails exactly when it does not complete with a status in 200..299;
`Send` returns nil if and only if one of the attempts 0..MaxRetries succeeds;
and if the first successful attempt has index k, `Send` makes exactly the
requests 0..k, sleeps only between them, and its last action is request k. -/
theorem Send_nil_iff_success (canon : String → String) (t : Transport) (ev : String)
    (world : Nat → Attempt) (fuel : Nat)
    (h0 : 0 ≤ t.config.MaxRetries) (hmax : t.config.MaxRetries < 9223372036854775807)
    (hfuel : t.config.MaxRetries.toNat + 2 ≤ fuel) :
    (∀ w, (t.makeRequest canon (t.payload ev) w).1 = none ↔ w.is2xx = true) ∧
    ∃ r, t.Send canon ev world fuel = some r ∧
      (r.err = none ↔ ∃ k : Nat, (k : Int) ≤ t.config.MaxRetries ∧ (world k).is2xx = true) ∧
      ∀ k : Nat, (k : Int) ≤ t.config.MaxRetries → (world k).is2xx = true →
        (∀ j < k, (world j).is2xx = false) →
        r.err = none ∧
        r.trace = t.retryTrace k ++ [.request k] ∧
        requestsOf r.trace = List.range (k + 1) ∧
        sleepsOf r.trace = (List.range k).map (fun (j : Nat) => t.calculateBackoff (j : Int)) ∧
        r.trace.getLast? = some (.request k) := by
  refine ⟨fun w => makeRequest_nil_iff canon t _ w, ?_⟩
  by_cases hex : ∃ k : Nat, (k : Int) ≤ t.config.MaxRetries ∧ (world k).is2xx = true
  · classical
    have hk := Nat.find_spec hex
    have hmin : ∀ j < Nat.find hex, (world j).is2xx = false := by
      intro j hj
      have hnot := Nat.find_min hex hj
      have hjle : (j : Int) ≤ t.config.MaxRetries := by
        have := hk.1
        omega
      cases hw : (world j).is2xx
      · rfl
      · exact absurd ⟨hjle, hw⟩ hnot
    have hfu : Nat.find hex + 1 ≤ fuel := by
      have := hk.1
      omega
    refine ⟨_, Send_first_success canon t ev world fuel (Nat.find hex) hk.1 (by omega) hmin hk.2
      hfu, ⟨fun _ => hex, fun _ => rfl⟩, ?_⟩
    intro k hkle hks hkmin
    have hkeq : k = Nat.find hex := by
      rcases Nat.lt_trichotomy k (Nat.find hex) with h | h | h
      · have := hmin k h
        rw [hks] at this
        exact absurd this (by simp)
      · exact h
      · have := hkmin _ h
        rw [hk.2] at this
        exact absurd this (by simp)
    subst hkeq
    refine ⟨rfl, rfl, ?_, ?_, ?_⟩
    · rw [requestsOf, List.filterMap_append, ← requestsOf, requestsOf_retryTrace,
        List.range_succ]
      rfl
    · rw [sleepsOf, List.filterMap_append, ← sleepsOf, sleepsOf_retryTrace]
      simp
    · simp
  · have hfail : ∀ j : Nat, (j : Int) ≤ t.config.MaxRetries → (world j).is2xx = false := by
      intro j hj
      cases hw : (world j).is2xx
      · rfl
      · exact absurd ⟨j, hj, hw⟩ hex
    refine ⟨_, Send_exhausted canon t ev world fuel h0 hmax hfail hfuel, ⟨?_, ?_⟩, ?_⟩
    · intro h
      have hN : ((t.config.MaxRetries.toNat : Nat) : Int) ≤ t.config.MaxRetries := by omega
      have := (makeRequest_nil_iff canon t _ _).mp h
      rw [hfail _ hN] at this
      exact absurd this (by simp)
    · intro h
      exact absurd h hex
    · intro k hkle hks _
      exact absurd ⟨k, hkle, hks⟩ hex

/-- Witness of `Send_nil_iff_success`: MaxRetries = 3 and an endpoint that
answers 500 twice and then 204; `Send` returns nil after three requests. -/
theorem Send_nil_iff_success_witness :
    (0 ≤ (NewTransport validTestConfig).config.MaxRetries ∧
      (NewTransport validTestConfig).config.MaxRetries < 9223372036854775807) ∧
    (NewTransport validTestConfig).Send CanonicalMIMEHeaderKey "e" thirdTimeWorld 5 =
      some ⟨none, [.request 0, .sleep 1000000000, .request 1, .sleep 2000000000, .request 2]⟩ := by
  obtain ⟨-, r, hr, -, hfirst⟩ :=
    Send_nil_iff_success CanonicalMIMEHeaderKey (NewTransport validTestConfig) "e" thirdTimeWorld 5
      (by decide) (by decide) (by decide)
  obtain ⟨herr, htrace, -⟩ := hfirst 2 (by decide) (by decide) (by decide)
  refine ⟨by decide, ?_⟩
  rw [hr]
  cases r
  simp only at htrace herr
  rw [htrace, herr]
  rfl

/-! ### Request headers -/

/-- Lookup after an assignment on a map. -/
theorem mapGet_mapSet {β : Type} (m : List (String × β)) (k k2 : String) (v : β) :
    mapGet (mapSet m k v) k2 = if k = k2 then some v else mapGet m k2 := by
  induction m with
  | nil => simp [mapSet, mapGet]
  | cons x rest ih =>
    obtain ⟨k1, v1⟩ := x
    by_cases h1 : k1 = k
    · subst h1
      by_cases h2 : k1 = k2 <;> simp [mapSet, mapGet, h2]
    · by_cases h2 : k1 = k2
      · subst h2
        have h3 : ¬ k = k1 := fun h => h1 h.symm
        simp [mapSet, mapGet, h1, h3]
      · simp [mapSet, mapGet, h1, h2, ih]

/-- Lookup after a sequence of `Header.Set` calls: the last call on the key
wins. -/
theorem mapGet_foldl_Set (canon : String → String) (key : String) :
    ∀ (hs : List (String × String)) (h0 : Header),
      mapGet (hs.foldl (fun h kv => Header.Set canon h kv.1 kv.2) h0) key =
        match hs.reverse.find? (fun kv => canon kv.1 = key) with
        | some kv => some [kv.2]
        | none => mapGet h0 key := by
  intro hs
  induction hs with
  | nil => intro h0; rfl
  | cons x xs ih =>
    intro h0
    rw [List.foldl_cons, ih, List.reverse_cons, List.find?_append]
    cases hfind : xs.reverse.find? (fun kv => canon kv.1 = key) with
    | some kv => simp
    | none =>
      by_cases hx : canon x.1 = key
      · simp [Header.Set, mapGet_mapSet, hx]
      · simp [Header.Set, mapGet_mapSet, hx]

/-- The value of a key in the header `makeRequest` builds. -/
theorem requestHeader_get (canon : String → String) (t : Transport) (key : String) :
    mapGet (t.requestHeader canon) (canon key) =
      match lastConfigured canon t key with
      | some kv => some [kv.2]
      | none =>
        if canon "User-Agent" = canon key then some ["Royaltics-ErrorTracker-Go/1.0"]
        else if canon "Content-Type" = canon key then some ["application/json"]
        else none := by
  rw [Transport.requestHeader, mapGet_foldl_Set, lastConfigured]
  cases t.config.Headers.reverse.find? (fun kv => canon kv.1 = canon key) with
  | some kv => rfl
  | none => simp [Header.Set, mapGet_mapSet, mapGet]

/-- Every request `makeRequest` sends carries the header `requestHeader`. -/
theorem makeRequest_header (canon : String → String) (t : Transport) (p : TransportPayload)
    (w : Attempt) (req : Request) (hreq : (t.makeRequest canon p w).2 = some req) :
    req.header = t.requestHeader canon := by
  cases w with
  | marshalError msg => simp [Transport.makeRequest] at hreq
  | newRequestError body msg => simp [Transport.makeRequest] at hreq
  | doError body msg =>
    simp only [Transport.makeRequest, Option.some.injEq] at hreq
    rw [← hreq]; rfl
  | response body statusCode status =>
    simp only [Transport.makeRequest] at hreq
    split_ifs at hreq <;>
    · simp only [Option.some.injEq] at hreq
      rw [← hreq]; rfl

/-- C9 (counterexample): with a configured header "Content-Type: text/plain",
the request that `makeRequest` sends carries Content-Type text/plain, not
application/json. -/
theorem makeRequest_content_type_shadowed :
    (shadowingTransport.makeRequest CanonicalMIMEHeaderKey (shadowingTransport.payload "")
        (.response "" 200 "200 OK")).2.map (fun req => mapGet req.header "Content-Type") =
      some (some ["text/plain"]) := by
  decide

/-- C9 (amended): the configured headers are applied after the two defaults,
each under its canonical key.  The request `makeRequest` sends carries, for
Content-Type, the value of the last configured header whose key canonicalises
to Content-Type and, when there is none, application/json; in the same way it
carries for User-Agent the last configured value or else the fixed client
identifier. -/
theorem makeRequest_content_type (canon : String → String) (t : Transport)
    (p : TransportPayload) (w : Attempt) (req : Request)
    (hcanon : canon "User-Agent" ≠ canon "Content-Type")
    (hreq : (t.makeRequest canon p w).2 = some req) :
    (mapGet req.header (canon "Content-Type") =
      match lastConfigured canon t "Content-Type" with
      | some kv => some [kv.2]
      | none => some ["application/json"]) ∧
    ((∀ kv ∈ t.config.Headers, canon kv.1 ≠ canon "Content-Type") →
      mapGet req.header (canon "Content-Type") = some ["application/json"]) ∧
    (mapGet req.header (canon "User-Agent") =
      match lastConfigured canon t "User-Agent" with
      | some kv => some [kv.2]
      | none => some ["Royaltics-ErrorTracker-Go/1.0"]) := by
  have hh := makeRequest_header canon t p w req hreq
  have hct := requestHeader_get canon t "Content-Type"
  have hua := requestHeader_get canon t "User-Agent"
  rw [← hh] at hct hua
  simp only [if_neg hcanon, if_true] at hct hua
  refine ⟨hct, ?_, hua⟩
  intro hnone
  have hfind : lastConfigured canon t "Content-Type" = none := by
    rw [lastConfigured, List.find?_eq_none]
    intro kv hkv
    simpa using hnone kv (List.mem_reverse.mp hkv)
  rw [hct, hfind]

/-- Witness of `makeRequest_content_type`: the transport of the valid test
configuration (no configured headers) and a 200 response. -/
theorem makeRequest_content_type_witness :
    (NewTransport validTestConfig).requestHeader CanonicalMIMEHeaderKey =
      [("Content-Type", ["application/json"]), ("User-Agent", ["Royaltics-ErrorTracker-Go/1.0"])] ∧
    mapGet ((NewTransport validTestConfig).requestHeader CanonicalMIMEHeaderKey)
      (CanonicalMIMEHeaderKey "Content-Type") = some ["application/json"] :=
  ⟨by decide,
    ((makeRequest_content_type CanonicalMIMEHeaderKey (NewTransport validTestConfig)
      ((NewTransport validTestConfig).payload "") (.response "" 200 "200 OK")
      ((NewTransport validTestConfig).buildRequest CanonicalMIMEHeaderKey "")
      (by decide) (by decide)).2.1 (by decide))⟩

/-- C10: for a client with MaxQueueSize = m >= 1, no flush in flight and a
non-empty queue of length L, `processBatch` returns, whatever the dispatches
answer and in whatever order they finish; its batch is the first min(L, m)
events of the queue in order, the queue left behind is the remaining
L - min(L, m) events in order, the batch followed by the new queue is the old
queue, and the queue length went down by the batch size. -/
theorem processBatch_extracts_prefix (c : ErrorTrackerClient)
    (dispatchEvent : Nat → EventIssue → GoError) (picks : Nat → Nat)
    (hm : 1 ≤ c.config.MaxQueueSize) (hp : c.isProcessing = false)
    (hL : 0 < c.eventQueue.length) :
    ∃ r, c.processBatch dispatchEvent picks = some r ∧
      r.batch = c.eventQueue.take (min c.eventQueue.length c.config.MaxQueueSize.toNat) ∧
      r.client.eventQueue = c.eventQueue.drop (min c.eventQueue.length c.config.MaxQueueSize.toNat) ∧
      r.batch ++ r.client.eventQueue = c.eventQueue ∧
      r.batch.length = min c.eventQueue.length c.config.MaxQueueSize.toNat ∧
      r.client.eventQueue.length =
        c.eventQueue.length - min c.eventQueue.length c.config.MaxQueueSize.toNat ∧
      r.client.eventQueue.length + r.batch.length = c.eventQueue.length := by
  have hsize : (if (c.eventQueue.length : Int) < c.config.MaxQueueSize
      then (c.eventQueue.length : Int) else c.config.MaxQueueSize).toNat =
      min c.eventQueue.length c.config.MaxQueueSize.toNat := by
    split_ifs with h <;> omega
  have hnn : ¬ (if (c.eventQueue.length : Int) < c.config.MaxQueueSize
      then (c.eventQueue.length : Int) else c.config.MaxQueueSize) < 0 := by
    split_ifs with h <;> omega
  have hq : ¬ (c.eventQueue.length = 0 ∨ c.isProcessing = true) := by
    rintro (h | h)
    · omega
    · simp [hp] at h
  refine ⟨_, by simp only [ErrorTrackerClient.processBatch, if_neg hq, if_neg hnn]; rfl, ?_⟩
  simp only [hsize, List.take_append_drop, List.length_take, List.length_drop, true_and]
  omega

/-- Witness of `processBatch_extracts_prefix`: three queued events and
MaxQueueSize = 2; the batch is the first two events and the third stays. -/
theorem processBatch_extracts_prefix_witness :
    (1 ≤ threeQueuedClient.config.MaxQueueSize ∧ threeQueuedClient.isProcessing = false ∧
      0 < threeQueuedClient.eventQueue.length) ∧
    ∃ r, threeQueuedClient.processBatch (fun _ _ => some "HTTP 500") launchOrder = some r ∧
      r.batch = threeQueuedClient.eventQueue.take (min threeQueuedClient.eventQueue.length
        threeQueuedClient.config.MaxQueueSize.toNat) ∧
      r.client.eventQueue = threeQueuedClient.eventQueue.drop
        (min threeQueuedClient.eventQueue.length threeQueuedClient.config.MaxQueueSize.toNat) ∧
      r.batch ++ r.client.eventQueue = threeQueuedClient.eventQueue ∧
      r.batch.length =
        min threeQueuedClient.eventQueue.length threeQueuedClient.config.MaxQueueSize.toNat ∧
      r.client.eventQueue.length = threeQueuedClient.eventQueue.length -
        min threeQueuedClient.eventQueue.length threeQueuedClient.config.MaxQueueSize.toNat ∧
      r.client.eventQueue.length + r.batch.length = threeQueuedClient.eventQueue.length :=
  ⟨by decide,
    processBatch_extracts_prefix threeQueuedClient (fun _ _ => some "HTTP 500") launchOrder
      (by decide) (by decide) (by decide)⟩

/-! ### Ingestion -/

/-- The effect of one ingestion call on the queue, the enabled flag and the
event builder. -/
theorem call_effect (c : ErrorTrackerClient) (call : Call) :
    (c.call call).eventQueue =
      c.eventQueue ++ (if c.isEnabled then call.built c.eventBuilder else []) ∧
    (c.call call).isEnabled = call.enabledAfter c.isEnabled ∧
    (c.call call).eventBuilder = c.eventBuilder := by
  cases call with
  | error env err level metadata =>
    cases h : c.isEnabled <;>
      simp [ErrorTrackerClient.call, ErrorTrackerClient.Error, ErrorTrackerClient.enqueue,
        Call.built, Call.enabledAfter, h]
  | event env title level metadata =>
    cases h : c.isEnabled <;>
      simp [ErrorTrackerClient.call, ErrorTrackerClient.Event, ErrorTrackerClient.enqueue,
        Call.built, Call.enabledAfter, h]
  | pause =>
    cases h : c.isEnabled <;>
      simp [ErrorTrackerClient.call, ErrorTrackerClient.Pause, Call.built, Call.enabledAfter]
  | resume =>
    cases h : c.isEnabled <;>
      simp [ErrorTrackerClient.call, ErrorTrackerClient.Resume, Call.built, Call.enabledAfter]

/-- The queue after a sequence of ingestion calls. -/
theorem calls_eventQueue (cs : List Call) :
    ∀ c : ErrorTrackerClient,
      (c.calls cs).eventQueue = c.eventQueue ++ acceptedEvents c.eventBuilder c.isEnabled cs := by
  induction cs with
  | nil => intro c; simp [ErrorTrackerClient.calls, acceptedEvents]
  | cons call rest ih =>
    intro c
    obtain ⟨hq, he, hb⟩ := call_effect c call
    have hstep : c.calls (call :: rest) = (c.call call).calls rest := rfl
    rw [hstep, ih, hq, he, hb, acceptedEvents, List.append_assoc]

/-- Each accepted record call contributes exactly one event. -/
theorem acceptedEvents_length (eb : EventBuilder) (cs : List Call) :
    ∀ enabled : Bool, (acceptedEvents eb enabled cs).length = acceptedCount enabled cs := by
  induction cs with
  | nil => intro enabled; rfl
  | cons call rest ih =>
    intro enabled
    rw [acceptedEvents, acceptedCount, List.length_append, ih]
    cases enabled <;> cases call <;> simp [Call.built, Call.isRecord]

/-- C11: after any sequence of Error, Event, Pause and Resume calls during
which no batch is extracted, the queue is the initial queue followed by the
events of the record calls made while enabled, one per call and in call order.
A record call made while disabled leaves the queue unchanged, Pause and Resume
never change it, and a record call made while enabled makes it one longer
whatever MaxQueueSize is. -/
theorem record_calls_queue (c : ErrorTrackerClient) (cs : List Call) :
    (c.calls cs).eventQueue = c.eventQueue ++ acceptedEvents c.eventBuilder c.isEnabled cs ∧
    (c.calls cs).eventQueue.length = c.eventQueue.length + acceptedCount c.isEnabled cs ∧
    (∀ call : Call, c.isEnabled = false → (c.call call).eventQueue = c.eventQueue) ∧
    c.Pause.eventQueue = c.eventQueue ∧
    c.Resume.eventQueue = c.eventQueue ∧
    (∀ call : Call, c.isEnabled = true → call.isRecord = true →
      (c.call call).eventQueue = c.eventQueue ++ call.built c.eventBuilder ∧
      (c.call call).eventQueue.length = c.eventQueue.length + 1) := by
  refine ⟨calls_eventQueue cs c, ?_, ?_, rfl, rfl, ?_⟩
  · rw [calls_eventQueue, List.length_append, acceptedEvents_length]
  · intro call h
    rw [(call_effect c call).1, h]
    simp
  · intro call h hrec
    rw [(call_effect c call).1, h]
    cases call <;> simp [Call.built, Call.isRecord] at hrec ⊢

/-! ### Flushing -/

/-- A list is a permutation of one of its entries followed by the others. -/
theorem perm_cons_eraseIdx {α : Type} :
    ∀ (l : List α) (j : Nat) (g : α), l[j]? = some g → (g :: l.eraseIdx j).Perm l
  | [], j, g, h => by simp at h
  | x :: xs, 0, g, h => by
    simp only [List.getElem?_cons_zero, Option.some.injEq] at h
    subst h
    exact List.Perm.refl _
  | x :: xs, j + 1, g, h => by
    simp only [List.getElem?_cons_succ] at h
    have ih := perm_cons_eraseIdx xs j g h
    rw [List.eraseIdx_cons_succ]
    exact (List.Perm.swap x g _).trans (List.Perm.cons x ih)

/-- The wait for the dispatching goroutines ends with none of them running:
those that were running have all finished, in some order, and the error channel
received the errors of their dispatches in that order. -/
theorem wait_spec (dispatchEvent : Nat → EventIssue → GoError) (picks : Nat → Nat) :
    ∀ (n step : Nat) (s : Dispatching), s.running.length ≤ n →
      ∃ l : List (Nat × EventIssue), l.Perm s.running ∧
        (Dispatching.wait dispatchEvent picks n step s).running = [] ∧
        (Dispatching.wait dispatchEvent picks n step s).finished = s.finished ++ l ∧
        (Dispatching.wait dispatchEvent picks n step s).errChan =
          s.errChan ++ l.filterMap (fun g => dispatchEvent g.1 g.2) := by
  intro n
  induction n with
  | zero =>
    intro step s hlen
    have hnil : s.running = [] := List.length_eq_zero.mp (by omega)
    exact ⟨[], by rw [hnil], by simp [Dispatching.wait, hnil], by simp [Dispatching.wait],
      by simp [Dispatching.wait]⟩
  | succ n ih =>
    intro step s hlen
    by_cases h0 : s.running.length = 0
    · have hnil : s.running = [] := List.length_eq_zero.mp h0
      exact ⟨[], by rw [hnil], by simp [Dispatching.wait, h0, hnil],
        by simp [Dispatching.wait, h0], by simp [Dispatching.wait, h0]⟩
    · have hj : picks step % s.running.length < s.running.length :=
        Nat.mod_lt _ (by omega)
      have hget : s.running[picks step % s.running.length]? =
          some (s.running[picks step % s.running.length]) := List.getElem?_eq_getElem hj
      generalize hg : s.running[picks step % s.running.length] = g at hget
      have hfin : s.finish dispatchEvent (picks step % s.running.length) =
          { running := s.running.eraseIdx (picks step % s.running.length)
            errChan :=
              match dispatchEvent g.1 g.2 with
              | some err => s.errChan ++ [err]
              | none => s.errChan
            finished := s.finished ++ [g] } := by
        simp only [Dispatching.finish, hget]
      obtain ⟨l, hperm, hrun, hfinished, herr⟩ :=
        ih (step + 1) (s.finish dispatchEvent (picks step % s.running.length)) (by
          rw [hfin]
          simp only [List.length_eraseIdx, hj, if_true]
          omega)
      have hw : Dispatching.wait dispatchEvent picks (n + 1) step s =
          Dispatching.wait dispatchEvent picks n (step + 1)
            (s.finish dispatchEvent (picks step % s.running.length)) := by
        simp only [Dispatching.wait, if_neg h0]
      rw [hw, hfin]
      rw [hfin] at hperm hrun hfinished herr
      simp only at hperm hfinished herr
      refine ⟨g :: l, (List.Perm.cons g hperm).trans (perm_cons_eraseIdx _ _ g hget), hrun, ?_, ?_⟩
      · rw [hfinished]
        simp
      · rw [herr]
        cases hd : dispatchEvent g.1 g.2 with
        | none => simp [List.filterMap_cons, hd]
        | some e => simp [List.filterMap_cons, hd]

/-- What `processBatch` returns on a non-empty queue with no flush in flight
and a batch size of at least 1. -/
theorem processBatch_eq (c : ErrorTrackerClient) (dispatchEvent : Nat → EventIssue → GoError)
    (picks : Nat → Nat)
    (hm : 1 ≤ c.config.MaxQueueSize) (hp : c.isProcessing = false)
    (hL : 0 < c.eventQueue.length) :
    c.processBatch dispatchEvent picks =
      some ⟨(Dispatching.wait dispatchEvent picks
            (c.eventQueue.take (min c.eventQueue.length c.config.MaxQueueSize.toNat)).length 0
            ⟨(c.eventQueue.take (min c.eventQueue.length c.config.MaxQueueSize.toNat)).enum,
              [], []⟩).errChan.head?,
        { c with eventQueue :=
          c.eventQueue.drop (min c.eventQueue.length c.config.MaxQueueSize.toNat) },
        c.eventQueue.take (min c.eventQueue.length c.config.MaxQueueSize.toNat),
        (Dispatching.wait dispatchEvent picks
            (c.eventQueue.take (min c.eventQueue.length c.config.MaxQueueSize.toNat)).length 0
            ⟨(c.eventQueue.take (min c.eventQueue.length c.config.MaxQueueSize.toNat)).enum,
              [], []⟩).finished⟩ := by
  have hsize : (if (c.eventQueue.length : Int) < c.config.MaxQueueSize
      then (c.eventQueue.length : Int) else c.config.MaxQueueSize).toNat =
      min c.eventQueue.length c.config.MaxQueueSize.toNat := by
    split_ifs with h <;> omega
  have hnn : ¬ (if (c.eventQueue.length : Int) < c.config.MaxQueueSize
      then (c.eventQueue.length : Int) else c.config.MaxQueueSize) < 0 := by
    split_ifs with h <;> omega
  have hq : ¬ (c.eventQueue.length = 0 ∨ c.isProcessing = true) := by
    rintro (h | h)
    · omega
    · simp [hp] at h
  simp only [ErrorTrackerClient.processBatch, if_neg hq, if_neg hnn, hsize]
  cases c
  simp only at hp
  subst hp
  rfl

/-- The result of `processBatch` on a non-empty queue with no flush in flight
and a batch size of at least 1: the batch is the head of the queue, every
goroutine launched for it has finished, and the error returned is the first
error that reached the error channel. -/
theorem processBatch_spec (c : ErrorTrackerClient) (dispatchEvent : Nat → EventIssue → GoError)
    (picks : Nat → Nat)
    (hm : 1 ≤ c.config.MaxQueueSize) (hp : c.isProcessing = false)
    (hL : 0 < c.eventQueue.length) :
    ∃ r, c.processBatch dispatchEvent picks = some r ∧
      r.batch = c.eventQueue.take (min c.eventQueue.length c.config.MaxQueueSize.toNat) ∧
      r.client =
        { c with eventQueue :=
          c.eventQueue.drop (min c.eventQueue.length c.config.MaxQueueSize.toNat) } ∧
      r.dispatched.Perm r.batch.enum ∧
      r.err = (r.dispatched.filterMap (fun g => dispatchEvent g.1 g.2)).head? := by
  obtain ⟨l, hperm, -, hfin, herr⟩ := wait_spec dispatchEvent picks
    (c.eventQueue.take (min c.eventQueue.length c.config.MaxQueueSize.toNat)).length 0
    ⟨(c.eventQueue.take (min c.eventQueue.length c.config.MaxQueueSize.toNat)).enum, [], []⟩
    (by simp [List.enum_length])
  refine ⟨_, processBatch_eq c dispatchEvent picks hm hp hL, rfl, rfl, ?_, ?_⟩
  · simp only [hfin, List.nil_append]
    exact hperm
  · simp only [hfin, herr, List.nil_append]

/-- One more batch is needed for a non-empty queue than for what is left of it
after a batch. -/
theorem batchCount_step (n m : Nat) (hn : 0 < n) (hm : 0 < m) :
    batchCount n m = batchCount (n - min n m) m + 1 := by
  unfold batchCount
  rcases Nat.lt_or_ge m n with h | h
  · have h1 : n - min n m + m - 1 = n - 1 := by omega
    have h2 : n + m - 1 = (n - 1) + m := by omega
    rw [h1, h2, Nat.add_div_right _ hm]
  · have h1 : n - min n m + m - 1 = m - 1 := by omega
    have h2 : n + m - 1 = (n - 1) + m := by omega
    rw [h1, h2, Nat.add_div_right _ hm, Nat.div_eq_of_lt (by omega), Nat.div_eq_of_lt (by omega)]

/-- The behaviour of `ForceFlush` on a client with a batch size of at least 1
and no flush in flight: with enough fuel it returns; the batches it extracted,
followed by the queue it leaves, are the queue it found; it returns nil only
after emptying the queue, in ceil(n/m) batches; it returns nil when every
delivery succeeds. -/
theorem ForceFlush_spec :
    ∀ (n : Nat) (dispatchEvent : Nat → EventIssue → GoError) (picks : Nat → Nat)
      (c : ErrorTrackerClient) (fuel : Nat),
      c.eventQueue.length = n → 1 ≤ c.config.MaxQueueSize → c.isProcessing = false →
      batchCount n c.config.MaxQueueSize.toNat + 1 ≤ fuel →
      ∃ r, ErrorTrackerClient.ForceFlush dispatchEvent picks fuel c = .done r ∧
        r.client = { c with eventQueue := r.client.eventQueue } ∧
        r.batches.flatten ++ r.client.eventQueue = c.eventQueue ∧
        (∀ b ∈ r.batches, 0 < b.length ∧ (b.length : Int) ≤ c.config.MaxQueueSize) ∧
        (r.err = none → r.client.eventQueue = [] ∧
          r.batches.length = batchCount n c.config.MaxQueueSize.toNat) ∧
        ((∀ k ev, dispatchEvent k ev = none) → r.err = none) ∧
        ((n : Int) ≤ c.config.MaxQueueSize → r.client.eventQueue = []) := by
  intro n
  induction n using Nat.strong_induction_on with
  | _ n ih =>
    intro dispatchEvent picks c fuel hn hm hp hfuel
    obtain ⟨f, rfl⟩ : ∃ f, fuel = f + 1 := ⟨fuel - 1, by omega⟩
    rcases Nat.eq_zero_or_pos n with h0 | hpos
    · subst h0
      refine ⟨⟨none, c, []⟩, by simp [ErrorTrackerClient.ForceFlush, hn], rfl, ?_, ?_, ?_, ?_,
        fun _ => List.length_eq_zero.mp hn⟩
      · simp
      · simp
      · intro _
        have hzero : batchCount 0 c.config.MaxQueueSize.toNat = 0 := by
          unfold batchCount
          exact Nat.div_eq_of_lt (by omega)
        exact ⟨List.length_eq_zero.mp hn, by simp [hzero]⟩
      · intro _; rfl
    · have hL : 0 < c.eventQueue.length := by omega
      have hmn : 0 < c.config.MaxQueueSize.toNat := by omega
      obtain ⟨b, hb, hbatch, hclient, -, herrb⟩ :=
        processBatch_spec c dispatchEvent picks hm hp hL
      have hne : ¬ c.eventQueue.length = 0 := by omega
      set k := min c.eventQueue.length c.config.MaxQueueSize.toNat with hk
      have hkpos : 0 < k := by omega
      have hkle : k ≤ c.eventQueue.length := by omega
      have hkm : (k : Int) ≤ c.config.MaxQueueSize := by omega
      have htake : b.batch.length = k := by
        rw [hbatch, List.length_take]; omega
      have hqueue : b.client.eventQueue = c.eventQueue.drop k := by rw [hclient]
      cases herr : b.err with
      | some e =>
        refine ⟨⟨some e, b.client, [b.batch]⟩, ?_, ?_, ?_, ?_, ?_, ?_, ?_⟩
        · rw [ErrorTrackerClient.ForceFlush, if_neg hne, hb]
          simp only [herr]
        · simp only [hclient]
        · simp only [List.flatten_cons, List.flatten_nil, List.append_nil, hqueue, hbatch]
          exact List.take_append_drop _ _
        · intro b2 hb2
          simp only [List.mem_singleton] at hb2
          subst hb2
          rw [htake]
          exact ⟨hkpos, hkm⟩
        · intro h; simp at h
        · intro hall
          have hnil : b.dispatched.filterMap (fun g => dispatchEvent g.1 g.2) = [] := by
            rw [List.filterMap_eq_nil_iff]
            intro x _
            exact hall x.1 x.2
          rw [herrb, hnil] at herr
          simp at herr
        · intro hfit
          have hkn : k = c.eventQueue.length := by omega
          simp only [hqueue, hkn, List.drop_length]
      | none =>
        have hlen : b.client.eventQueue.length = n - k := by
          rw [hqueue, List.length_drop]; omega
        have hcfg : b.client.config = c.config := by rw [hclient]
        have hproc : b.client.isProcessing = false := by rw [hclient]; exact hp
        have hcount := batchCount_step n c.config.MaxQueueSize.toNat hpos hmn
        have hkn : min n c.config.MaxQueueSize.toNat = k := by rw [hk, hn]
        rw [hkn] at hcount
        obtain ⟨r, hr, hcl, hjoin, hsz, hnone, hall, hone⟩ :=
          ih (n - k) (by omega) (fun i => dispatchEvent (i + b.batch.length))
            (fun i => picks (i + b.batch.length)) b.client f hlen (by rw [hcfg]; exact hm) hproc
            (by rw [hcfg]; omega)
        rw [hcfg] at hsz hnone hone
        refine ⟨⟨r.err, r.client, b.batch :: r.batches⟩, ?_, ?_, ?_, ?_, ?_, ?_,
          fun hfit => hone (by omega)⟩
        · rw [ErrorTrackerClient.ForceFlush, if_neg hne, hb]
          simp only [herr, hr]
        · rw [hcl, hclient]
        · simp only [List.flatten_cons, List.append_assoc]
          rw [hjoin, hqueue, hbatch]
          exact List.take_append_drop _ _
        · intro b2 hb2
          rcases List.mem_cons.mp hb2 with hb2 | hb2
          · subst hb2
            rw [htake]
            exact ⟨hkpos, hkm⟩
          · exact hsz b2 hb2
        · intro h
          obtain ⟨h1, h2⟩ := hnone h
          refine ⟨h1, ?_⟩
          simp only [List.length_cons, h2]
          omega
        · intro hok
          exact hall (fun i ev => hok _ ev)

/-- C12: on a client with MaxQueueSize = m >= 1, no flush in flight and a queue
of n events, whatever its enabled flag, if every delivery succeeds then
`ForceFlush`, given fuel for its ceil(n/m) + 1 readings of the queue length,
returns nil and leaves the queue empty and the rest of the client unchanged; it
extracted exactly ceil(n/m) batches, each of 1..m events, which put one after
the other are the queue it found, so every event was dispatched exactly once
and in FIFO order; on an empty queue it extracts no batch. -/
theorem ForceFlush_all_delivered (c : ErrorTrackerClient)
    (dispatchEvent : Nat → EventIssue → GoError) (picks : Nat → Nat)
    (fuel : Nat)
    (hm : 1 ≤ c.config.MaxQueueSize) (hp : c.isProcessing = false)
    (hok : ∀ k ev, dispatchEvent k ev = none)
    (hfuel : (c.eventQueue.length + c.config.MaxQueueSize.toNat - 1) /
      c.config.MaxQueueSize.toNat + 1 ≤ fuel) :
    ∃ r, ErrorTrackerClient.ForceFlush dispatchEvent picks fuel c = .done r ∧
      r.err = none ∧
      r.client = { c with eventQueue := [] } ∧
      r.batches.length =
        (c.eventQueue.length + c.config.MaxQueueSize.toNat - 1) / c.config.MaxQueueSize.toNat ∧
      r.batches.flatten = c.eventQueue ∧
      (∀ b ∈ r.batches, 0 < b.length ∧ (b.length : Int) ≤ c.config.MaxQueueSize) ∧
      (c.eventQueue = [] → r.batches = []) := by
  obtain ⟨r, hr, hcl, hjoin, hsz, hnone, hall, -⟩ :=
    ForceFlush_spec c.eventQueue.length dispatchEvent picks c fuel rfl hm hp hfuel
  have herr := hall hok
  obtain ⟨hempty, hlen⟩ := hnone herr
  rw [hempty, List.append_nil] at hjoin
  refine ⟨r, hr, herr, by rw [hcl, hempty], hlen, hjoin, hsz, ?_⟩
  intro hq
  rw [hq] at hjoin
  cases hb : r.batches with
  | nil => rfl
  | cons b bs =>
    have hbpos := (hsz b (by rw [hb]; exact List.mem_cons_self _ _)).1
    rw [hb, List.flatten_cons] at hjoin
    have := congrArg List.length hjoin
    simp only [List.length_append, List.length_nil] at this
    omega

/-- Witness of `ForceFlush_all_delivered`: three queued events, MaxQueueSize 2
and deliveries that succeed; two batches, the first two events and then the
third. -/
theorem ForceFlush_all_delivered_witness :
    (1 ≤ threeQueuedClient.config.MaxQueueSize ∧ threeQueuedClient.isProcessing = false) ∧
    ErrorTrackerClient.ForceFlush succeedingDispatch launchOrder 3 threeQueuedClient =
      .done ⟨none, { threeQueuedClient with eventQueue := [] },
        [[sampleEvent "1" "a", sampleEvent "2" "b"], [sampleEvent "3" "c"]]⟩ := by
  obtain ⟨r, hr, herr, hcl, -, hflat, -⟩ :=
    ForceFlush_all_delivered threeQueuedClient succeedingDispatch launchOrder 3 (by decide)
      (by decide) (fun _ _ => rfl) (by decide)
  exact ⟨by decide, by decide⟩

/-! ### Shutdown -/

/-- `processBatch` changes nothing but the queue and the draining flag. -/
theorem processBatch_flags (c : ErrorTrackerClient) (dispatchEvent : Nat → EventIssue → GoError)
    (picks : Nat → Nat) (b : BatchResult)
    (h : c.processBatch dispatchEvent picks = some b) :
    b.client.isActive = c.isActive ∧ b.client.isEnabled = c.isEnabled ∧
    b.client.stopChanClosed = c.stopChanClosed ∧ b.client.wg = c.wg ∧
    b.client.config = c.config := by
  unfold ErrorTrackerClient.processBatch at h
  by_cases h1 : c.eventQueue.length = 0 ∨ c.isProcessing = true
  · rw [if_pos h1] at h
    simp only [Option.some.injEq] at h
    subst h
    exact ⟨rfl, rfl, rfl, rfl, rfl⟩
  · rw [if_neg h1] at h
    simp only at h
    split_ifs at h <;>
      · simp only [Option.some.injEq] at h
        subst h
        exact ⟨rfl, rfl, rfl, rfl, rfl⟩

/-- `ForceFlush` changes nothing but the queue and the draining flag. -/
theorem ForceFlush_flags :
    ∀ (fuel : Nat) (dispatchEvent : Nat → EventIssue → GoError) (picks : Nat → Nat)
      (c : ErrorTrackerClient) (r : FlushResult),
      ErrorTrackerClient.ForceFlush dispatchEvent picks fuel c = .done r →
      r.client.isActive = c.isActive ∧ r.client.isEnabled = c.isEnabled ∧
      r.client.stopChanClosed = c.stopChanClosed ∧ r.client.wg = c.wg ∧
      r.client.config = c.config := by
  intro fuel
  induction fuel with
  | zero => intro dispatchEvent picks c r h; simp [ErrorTrackerClient.ForceFlush] at h
  | succ fuel ih =>
    intro dispatchEvent picks c r h
    rw [ErrorTrackerClient.ForceFlush] at h
    split_ifs at h with h0
    · simp only [Run.done.injEq] at h
      subst h
      exact ⟨rfl, rfl, rfl, rfl, rfl⟩
    · cases hb : c.processBatch dispatchEvent picks with
      | none => simp [hb] at h
      | some b =>
        obtain ⟨f1, f2, f3, f4, f5⟩ := processBatch_flags c dispatchEvent picks b hb
        simp only [hb] at h
        cases he : b.err with
        | some e =>
          simp only [he, Run.done.injEq] at h
          subst h
          exact ⟨f1, f2, f3, f4, f5⟩
        | none =>
          simp only [he] at h
          cases hrec : ErrorTrackerClient.ForceFlush (fun k => dispatchEvent (k + b.batch.length))
              (fun k => picks (k + b.batch.length)) fuel b.client with
          | done r2 =>
            simp only [hrec, Run.done.injEq] at h
            subst h
            obtain ⟨g1, g2, g3, g4, g5⟩ := ih _ _ b.client r2 hrec
            exact ⟨g1.trans f1, g2.trans f2, g3.trans f3, g4.trans f4, g5.trans f5⟩
          | panic msg => simp [hrec] at h
          | outOfFuel => simp [hrec] at h

/-- The ticks that race with the stop signal change nothing but the queue and
the draining flag. -/
theorem racingTicks_flags :
    ∀ (ticks : Nat) (dispatchEvent : Nat → EventIssue → GoError) (picks : Nat → Nat)
      (c c2 : ErrorTrackerClient) (bs : List BatchResult),
      ErrorTrackerClient.racingTicks dispatchEvent picks ticks c = some (c2, bs) →
      c2.isActive = c.isActive ∧ c2.isEnabled = c.isEnabled ∧
      c2.stopChanClosed = c.stopChanClosed ∧ c2.wg = c.wg ∧ c2.config = c.config := by
  intro ticks
  induction ticks with
  | zero =>
    intro dispatchEvent picks c c2 bs h
    simp only [ErrorTrackerClient.racingTicks, Option.some.injEq, Prod.mk.injEq] at h
    obtain ⟨rfl, -⟩ := h
    exact ⟨rfl, rfl, rfl, rfl, rfl⟩
  | succ ticks ih =>
    intro dispatchEvent picks c c2 bs h
    rw [ErrorTrackerClient.racingTicks] at h
    cases hb : c.processBatch dispatchEvent picks with
    | none => simp [hb] at h
    | some b =>
      obtain ⟨f1, f2, f3, f4, f5⟩ := processBatch_flags c dispatchEvent picks b hb
      simp only [hb] at h
      cases hrec : ErrorTrackerClient.racingTicks (fun k => dispatchEvent (k + b.batch.length))
          (fun k => picks (k + b.batch.length)) ticks b.client with
      | none => simp [hrec] at h
      | some res =>
        obtain ⟨c3, bs3⟩ := res
        simp only [hrec, Option.some.injEq, Prod.mk.injEq] at h
        obtain ⟨rfl, -⟩ := h
        obtain ⟨g1, g2, g3, g4, g5⟩ := ih _ _ b.client c3 bs3 hrec
        exact ⟨g1.trans f1, g2.trans f2, g3.trans f3, g4.trans f4, g5.trans f5⟩

/-- A `Shutdown` that returns found the stop channel open and leaves the
client inactive, disabled, with the channel closed and no batch processor. -/
theorem Shutdown_flags (c : ErrorTrackerClient) (dispatchEvent : Nat → EventIssue → GoError)
    (picks : Nat → Nat) (ticks fuel : Nat) (r : ShutdownResult)
    (h : c.Shutdown dispatchEvent picks ticks fuel = .done r) :
    c.stopChanClosed = false ∧ r.client.isActive = false ∧ r.client.isEnabled = false ∧
    r.client.stopChanClosed = true ∧ r.client.wg = 0 ∧ r.client.config = c.config := by
  unfold ErrorTrackerClient.Shutdown at h
  simp only at h
  split_ifs at h with hc hw <;>
    · simp only [Bool.not_eq_true] at hc
      split at h
      · exact Run.noConfusion h
      · rename_i c4 ticked ht
        obtain ⟨t1, t2, t3, -, t5⟩ := racingTicks_flags _ _ _ _ c4 ticked ht
        split at h
        · rename_i fr hf
          simp only [Run.done.injEq] at h
          subst h
          obtain ⟨f1, f2, f3, f4, f5⟩ := ForceFlush_flags _ _ _ _ fr hf
          exact ⟨hc, f1.trans t1, f2.trans t2, f3.trans t3, f4, f5.trans t5⟩
        · exact Run.noConfusion h
        · exact Run.noConfusion h

/-- C13 (evaluation of the code): a started client with MaxQueueSize 2 and
three queued events.  When the deliveries fail and no tick races with the stop
signal, `Shutdown` returns the error of the first batch and leaves the third
event in the queue.  When a tick races with the stop signal and the deliveries
of its batch fail, that error is dropped and `Shutdown` returns nil once the
third event is delivered, although two deliveries failed. -/
theorem Shutdown_leaves_events :
    threeQueuedClient.isActive = true ∧
    threeQueuedClient.Shutdown failingDispatch launchOrder 0 10 =
      .done ⟨some "HTTP 500: 500 Internal Server Error",
        { threeQueuedClient with
          eventQueue := [sampleEvent "3" "c"], isActive := false, isEnabled := false,
          stopChanClosed := true, wg := 0 },
        [],
        [[sampleEvent "1" "a", sampleEvent "2" "b"]]⟩ ∧
    threeQueuedClient.Shutdown twoFailingDispatch launchOrder 1 10 =
      .done ⟨none,
        { threeQueuedClient with
          eventQueue := [], isActive := false, isEnabled := false,
          stopChanClosed := true, wg := 0 },
        [⟨some "HTTP 500: 500 Internal Server Error",
          { threeQueuedClient with
            eventQueue := [sampleEvent "3" "c"], isActive := false, isEnabled := false,
            stopChanClosed := true },
          [sampleEvent "1" "a", sampleEvent "2" "b"],
          [(0, sampleEvent "1" "a"), (1, sampleEvent "2" "b")]⟩],
        [[sampleEvent "3" "c"]]⟩ := by
  decide

/-- C14 (evaluation of the code): whenever a first `Shutdown` has returned, a
second `Shutdown` on the client it left panics at `close(c.stopChan)`, whatever
the deliveries do, whatever ticks race with the stop signal and whatever the
fuel. -/
theorem Shutdown_twice_panics (c : ErrorTrackerClient)
    (dispatchEvent : Nat → EventIssue → GoError) (picks : Nat → Nat) (ticks fuel : Nat)
    (r : ShutdownResult)
    (h : c.Shutdown dispatchEvent picks ticks fuel = .done r)
    (dispatchEvent2 : Nat → EventIssue → GoError) (picks2 : Nat → Nat)
    (ticks2 fuel2 : Nat) :
    r.client.Shutdown dispatchEvent2 picks2 ticks2 fuel2 =
      .panic "close of closed channel" := by
  obtain ⟨-, -, -, hclosed, -, -⟩ := Shutdown_flags c dispatchEvent picks ticks fuel r h
  unfold ErrorTrackerClient.Shutdown
  simp only [hclosed, if_true]

/-- Witness of `Shutdown_twice_panics`: the started test client, shut down
twice. -/
theorem Shutdown_twice_panics_witness :
    startedTestClient.Shutdown succeedingDispatch launchOrder 0 5 =
      .done ⟨none, stoppedTestClient, [], []⟩ ∧
    stoppedTestClient.Shutdown succeedingDispatch launchOrder 1 5 =
      .panic "close of closed channel" :=
  ⟨by decide,
    Shutdown_twice_panics startedTestClient succeedingDispatch launchOrder 0 5
      ⟨none, stoppedTestClient, [], []⟩ (by decide) succeedingDispatch launchOrder 1 5⟩

/-! ### Start -/

/-- `Start` on an active client is the identity, any number of times. -/
theorem Start_iterate_active (n : Nat) :
    ∀ c : ErrorTrackerClient, c.isActive = true → ErrorTrackerClient.Start^[n] c = c := by
  induction n with
  | zero => intro c _; rfl
  | succ n ih =>
    intro c h
    have hs : c.Start = c := by simp [ErrorTrackerClient.Start, h]
    rw [Function.iterate_succ_apply, hs, ih c h]

/-- A started client is active. -/
theorem Start_isActive (c : ErrorTrackerClient) : c.Start.isActive = true := by
  cases h : c.isActive <;>
    simp [ErrorTrackerClient.Start, ErrorTrackerClient.startBatchProcessor, h]

/-- What `NewClient` returns when it succeeds. -/
theorem NewClient_ok_fields (urlParseErr : String → Bool) (maxCap : Int) (config : ClientConfig)
    (c : ErrorTrackerClient) (h : NewClient urlParseErr maxCap config = .done (.ok c)) :
    config.Validate urlParseErr = none ∧ c.config = applyDefaults config ∧ c.eventQueue = [] ∧
    c.isActive = false ∧ c.isProcessing = false ∧ c.stopChanClosed = false ∧ c.wg = 0 := by
  unfold NewClient at h
  cases hv : config.Validate urlParseErr with
  | some e => simp [hv] at h
  | none =>
    simp only [hv] at h
    split_ifs at h
    simp only [Run.done.injEq, Except.ok.injEq] at h
    subst h
    exact ⟨rfl, rfl, rfl, rfl, rfl, rfl, rfl⟩

/-- The defaults leave the flush interval and the queue size of a valid
configuration alone. -/
theorem applyDefaults_valid (urlParseErr : String → Bool) (config : ClientConfig)
    (hv : config.Validate urlParseErr = none) :
    (applyDefaults config).FlushInterval = config.FlushInterval ∧
    (applyDefaults config).MaxQueueSize = config.MaxQueueSize := by
  obtain ⟨-, -, -, -, ⟨ht, -⟩, hf, hq⟩ := (validate_nil_conditions urlParseErr config).mp hv
  have ht0 : config.Timeout ≠ 0 := by omega
  have hf0 : config.FlushInterval ≠ 0 := by omega
  have hq0 : config.MaxQueueSize ≠ 0 := by omega
  unfold applyDefaults
  by_cases hr : config.MaxRetries = 0 <;> simp [hr, ht0, hf0, hq0]

/-- C15: `Start` on an active client changes nothing and launches nothing; on
an idle client it sets the active flag and launches exactly one batch
processor.  Hence any number of consecutive `Start` calls has the effect of
one, and after them a client fresh from `NewClient` is active with exactly one
batch processor, whose ticker has a positive interval and which waits for the
next tick when none is pending. -/
theorem Start_idempotent (urlParseErr : String → Bool) (maxCap : Int) (config : ClientConfig)
    (c : ErrorTrackerClient) (n : Nat) :
    (c.isActive = true → c.Start = c) ∧
    (c.isActive = false → c.Start = { c with isActive := true, wg := c.wg + 1 }) ∧
    c.Start.Start = c.Start ∧
    ErrorTrackerClient.Start^[n + 1] c = c.Start ∧
    (NewClient urlParseErr maxCap config = .done (.ok c) →
      (ErrorTrackerClient.Start^[n + 1] c).isActive = true ∧
      (ErrorTrackerClient.Start^[n + 1] c).wg = 1 ∧
      0 < (ErrorTrackerClient.Start^[n + 1] c).config.FlushInterval ∧
      ∀ pick dispatchEvent picks,
        (ErrorTrackerClient.Start^[n + 1] c).batchProcessorStep false pick dispatchEvent
          picks = .blocked) := by
  have hiter : ErrorTrackerClient.Start^[n + 1] c = c.Start := by
    rw [Function.iterate_succ_apply, Start_iterate_active n _ (Start_isActive c)]
  refine ⟨fun h => by simp [ErrorTrackerClient.Start, h],
    fun h => by simp [ErrorTrackerClient.Start, ErrorTrackerClient.startBatchProcessor, h],
    by simpa using Start_iterate_active 1 _ (Start_isActive c), hiter, ?_⟩
  intro hnew
  obtain ⟨hv, hcfg, -, hA, -, hopen, hwg⟩ :=
    NewClient_ok_fields urlParseErr maxCap config c hnew
  have hflush := (applyDefaults_valid urlParseErr config hv).1
  have hbound := ((validate_nil_conditions urlParseErr config).mp hv).2.2.2.2.2.1
  have hstart : c.Start = { c with isActive := true, wg := c.wg + 1 } := by
    simp [ErrorTrackerClient.Start, ErrorTrackerClient.startBatchProcessor, hA]
  rw [hiter, hstart]
  refine ⟨rfl, by simp [hwg], ?_, ?_⟩
  · show 0 < c.config.FlushInterval
    rw [hcfg, hflush]
    omega
  · intro pick dispatchEvent picks
    simp [ErrorTrackerClient.batchProcessorStep, selectCase, hopen]

/-- C16 (counterexample): the client with MaxQueueSize 2 and three queued
events is shut down while the deliveries fail, which leaves the third event in
the queue.  A later `Start` makes the client active again and launches a batch
processor; when a tick is pending and `select` takes it, that processor
extracts and delivers the event that was left, and it goes on to a further
iteration, in which it takes a tick again. -/
theorem Start_after_Shutdown_restarts :
    threeQueuedClient.Shutdown failingDispatch launchOrder 0 10 =
      .done ⟨some "HTTP 500: 500 Internal Server Error",
        { threeQueuedClient with
          eventQueue := [sampleEvent "3" "c"], isActive := false, isEnabled := false,
          stopChanClosed := true, wg := 0 },
        [],
        [[sampleEvent "1" "a", sampleEvent "2" "b"]]⟩ ∧
    ({ threeQueuedClient with
        eventQueue := [sampleEvent "3" "c"], isActive := false, isEnabled := false,
        stopChanClosed := true, wg := 0 } : ErrorTrackerClient).Start =
      { threeQueuedClient with
        eventQueue := [sampleEvent "3" "c"], isActive := true, isEnabled := false,
        stopChanClosed := true, wg := 1 } ∧
    ({ threeQueuedClient with
        eventQueue := [sampleEvent "3" "c"], isActive := true, isEnabled := false,
        stopChanClosed := true, wg := 1 } : ErrorTrackerClient).batchProcessorStep true .tick
        succeedingDispatch launchOrder =
      .flushed { threeQueuedClient with
        eventQueue := [], isActive := true, isEnabled := false, stopChanClosed := true,
        wg := 1 } ∧
    ({ threeQueuedClient with
        eventQueue := [], isActive := true, isEnabled := false, stopChanClosed := true,
        wg := 1 } : ErrorTrackerClient).batchProcessorStep true .tick
        succeedingDispatch launchOrder =
      .flushed { threeQueuedClient with
        eventQueue := [], isActive := true, isEnabled := false, stopChanClosed := true,
        wg := 1 } := by
  decide

/-- C16 (amended): on every client on which `Shutdown` has returned, the stop
channel is closed for good.  A later `Start` sets the active flag again and
launches a batch processor.  The `select` of that processor never blocks
waiting for a tick: it returns at once when no tick is pending and whenever the
stop case is picked; when a tick is pending and picked it runs `processBatch`
and goes on to the next iteration, with the stop channel still closed. -/
theorem Start_after_Shutdown (c : ErrorTrackerClient)
    (dispatchEvent : Nat → EventIssue → GoError) (picks : Nat → Nat) (ticks fuel : Nat)
    (r : ShutdownResult)
    (h : c.Shutdown dispatchEvent picks ticks fuel = .done r) :
    r.client.isActive = false ∧ r.client.stopChanClosed = true ∧ r.client.wg = 0 ∧
    r.client.Start = { r.client with isActive := true, wg := 1 } ∧
    r.client.Start.stopChanClosed = true ∧
    (∀ tickReady pick d2 p2,
      r.client.Start.batchProcessorStep tickReady pick d2 p2 ≠ .blocked) ∧
    (∀ pick d2 p2,
      r.client.Start.batchProcessorStep false pick d2 p2 =
        .returned { r.client.Start with wg := 0 }) ∧
    (∀ tickReady d2 p2,
      r.client.Start.batchProcessorStep tickReady .stop d2 p2 =
        .returned { r.client.Start with wg := 0 }) ∧
    (∀ d2 p2 b, r.client.Start.processBatch d2 p2 = some b →
      r.client.Start.batchProcessorStep true .tick d2 p2 = .flushed b.client) ∧
    (∀ tickReady pick d2 p2 c2,
      r.client.Start.batchProcessorStep tickReady pick d2 p2 = .flushed c2 →
        c2.isActive = true ∧ c2.stopChanClosed = true ∧ c2.wg = 1) := by
  obtain ⟨-, hA, -, hclosed, hwg, -⟩ := Shutdown_flags c dispatchEvent picks ticks fuel r h
  have hstart : r.client.Start = { r.client with isActive := true, wg := 1 } := by
    simp [ErrorTrackerClient.Start, ErrorTrackerClient.startBatchProcessor, hA, hwg]
  have hsc : r.client.Start.stopChanClosed = true := by rw [hstart]; exact hclosed
  have hsa : r.client.Start.isActive = true := by rw [hstart]
  have hsw : r.client.Start.wg = 1 := by rw [hstart]
  refine ⟨hA, hclosed, hwg, hstart, hsc, ?_, ?_, ?_, ?_, ?_⟩
  · intro tickReady pick d2 p2
    cases tickReady <;> cases pick <;>
      simp only [ErrorTrackerClient.batchProcessorStep, selectCase, hsc] <;>
      first
      | exact fun hne => LoopStep.noConfusion hne
      | (cases r.client.Start.processBatch d2 p2 <;> exact fun hne => LoopStep.noConfusion hne)
  · intro pick d2 p2
    have hw : r.client.Start.wg - 1 = 0 := by rw [hstart]; rfl
    simp only [ErrorTrackerClient.batchProcessorStep, selectCase, hsc, hw]
  · intro tickReady d2 p2
    have hw : r.client.Start.wg - 1 = 0 := by rw [hstart]; rfl
    cases tickReady <;> simp only [ErrorTrackerClient.batchProcessorStep, selectCase, hsc, hw]
  · intro d2 p2 b hb
    simp only [ErrorTrackerClient.batchProcessorStep, selectCase, hsc, hb]
  · intro tickReady pick d2 p2 c2 hstep
    cases tickReady <;> cases pick <;>
      simp only [ErrorTrackerClient.batchProcessorStep, selectCase, hsc] at hstep
    all_goals first
      | exact LoopStep.noConfusion hstep
      | skip
    all_goals
      cases hb : r.client.Start.processBatch d2 p2 with
      | none => rw [hb] at hstep; exact LoopStep.noConfusion hstep
      | some b =>
        rw [hb] at hstep
        simp only [LoopStep.flushed.injEq] at hstep
        subst hstep
        obtain ⟨f1, -, f3, f4, -⟩ := processBatch_flags _ d2 p2 b hb
        exact ⟨f1.trans hsa, f3.trans hsc, f4.trans hsw⟩

/-- Witness of `Start_after_Shutdown`: the started test client, shut down and
started again; the relaunched batch processor returns at its first select when
no tick is pending. -/
theorem Start_after_Shutdown_witness :
    startedTestClient.Shutdown succeedingDispatch launchOrder 0 5 =
      .done ⟨none, stoppedTestClient, [], []⟩ ∧
    stoppedTestClient.Start.batchProcessorStep false .tick succeedingDispatch launchOrder =
      .returned { stoppedTestClient.Start with wg := 0 } :=
  ⟨by decide,
    (Start_after_Shutdown startedTestClient succeedingDispatch launchOrder 0 5
      ⟨none, stoppedTestClient, [], []⟩ (by decide)).2.2.2.2.2.2.1 .tick succeedingDispatch
      launchOrder⟩

/-! ### The registry -/

/-- `Create` with a valid configuration, in terms of the client `NewClient`
builds. -/
theorem Create_ok (urlParseErr : String → Bool) (maxCap : Int) (config : ClientConfig)
    (name : List String) (r : Registry) (fresh : ErrorTrackerClient)
    (h : NewClient urlParseErr maxCap config = .done (.ok fresh)) :
    Create urlParseErr maxCap config name r =
      match name with
      | n :: _ =>
        if n ≠ "" then
          (.done (.ok fresh.Start), { r with instances := mapSet r.instances n fresh.Start })
        else if r.defaultInstance = none then
          (.done (.ok fresh.Start), { r with defaultInstance := some fresh.Start })
        else (.done (.ok fresh.Start), r)
      | [] =>
        if r.defaultInstance = none then
          (.done (.ok fresh.Start), { r with defaultInstance := some fresh.Start })
        else (.done (.ok fresh.Start), r) := by
  simp only [Create, h]

/-- `NewClient` succeeds on a configuration that passes `Validate` and whose
queue the runtime can allocate. -/
theorem NewClient_of_valid (urlParseErr : String → Bool) (maxCap : Int) (config : ClientConfig)
    (hv : config.Validate urlParseErr = none) (hcap : config.MaxQueueSize ≤ maxCap) :
    ∃ fresh, NewClient urlParseErr maxCap config = .done (.ok fresh) ∧ fresh.isActive = false ∧
      fresh.wg = 0 := by
  have hq := ((validate_nil_conditions urlParseErr config).mp hv).2.2.2.2.2.2
  have hmk : makeslicePanics maxCap (applyDefaults config).MaxQueueSize = false := by
    rw [(applyDefaults_valid urlParseErr config hv).2]
    simp only [makeslicePanics, decide_eq_false_iff_not]
    omega
  exact ⟨_, by simp only [NewClient, hv, hmk]; rfl, rfl, rfl⟩

/-- C17 (counterexample): the valid test configuration with MaxQueueSize =
9223372036854775807 passes `Validate`, yet `Create` under the name "custom"
panics when `NewClient` makes the queue, and nothing is registered under that
name. -/
theorem Create_huge_queue_panics :
    hugeQueueConfig.Validate urlParseErr = none ∧
    Create urlParseErr maxSliceCap hugeQueueConfig ["custom"] emptyRegistry =
      (.panic "makeslice: cap out of range", emptyRegistry) ∧
    Has ["custom"] (Create urlParseErr maxSliceCap hugeQueueConfig ["custom"] emptyRegistry).2 =
      false := by
  decide

/-- C17 (amended): for every registry and every valid configuration whose
MaxQueueSize is a capacity the runtime can allocate, `Create` with a non-empty
name returns the new started client, after which `Get` of that name returns
exactly that client, `Has` of that name is true and the default instance is
unchanged; `Create` without a name (or with the empty name) returns the new
started client and leaves the named map unchanged, and afterwards `Get()`
returns the new client if there was no default instance and the earlier
default instance, the registry being unchanged, if there was one. -/
theorem Create_Get_Has (urlParseErr : String → Bool) (maxCap : Int) (config : ClientConfig)
    (r : Registry) (hv : config.Validate urlParseErr = none)
    (hcap : config.MaxQueueSize ≤ maxCap) :
    ∃ fresh, NewClient urlParseErr maxCap config = .done (.ok fresh) ∧
      fresh.Start.isActive = true ∧ fresh.Start.wg = 1 ∧
      (∀ (n : String) (rest : List String), n ≠ "" →
        (Create urlParseErr maxCap config (n :: rest) r).1 = .done (.ok fresh.Start) ∧
        Get [n] (Create urlParseErr maxCap config (n :: rest) r).2 = .ok fresh.Start ∧
        Has [n] (Create urlParseErr maxCap config (n :: rest) r).2 = true ∧
        (Create urlParseErr maxCap config (n :: rest) r).2.defaultInstance =
          r.defaultInstance) ∧
      (∀ rest : List String,
        Create urlParseErr maxCap config ("" :: rest) r =
          Create urlParseErr maxCap config [] r) ∧
      (Create urlParseErr maxCap config [] r).1 = .done (.ok fresh.Start) ∧
      (Create urlParseErr maxCap config [] r).2.instances = r.instances ∧
      (r.defaultInstance = none →
        Get [] (Create urlParseErr maxCap config [] r).2 = .ok fresh.Start) ∧
      (∀ d, r.defaultInstance = some d →
        Get [] (Create urlParseErr maxCap config [] r).2 = .ok d ∧
        (Create urlParseErr maxCap config [] r).2 = r) := by
  obtain ⟨fresh, hnew, hA, hwg⟩ := NewClient_of_valid urlParseErr maxCap config hv hcap
  have hstart : fresh.Start = { fresh with isActive := true, wg := fresh.wg + 1 } := by
    simp [ErrorTrackerClient.Start, ErrorTrackerClient.startBatchProcessor, hA]
  refine ⟨fresh, hnew, Start_isActive fresh, by rw [hstart]; simp [hwg], ?_, ?_, ?_, ?_, ?_, ?_⟩
  · intro n rest hn
    rw [Create_ok urlParseErr maxCap config (n :: rest) r fresh hnew]
    simp only [hn, ne_eq, not_false_eq_true, if_true]
    refine ⟨trivial, ?_, ?_, trivial⟩
    · simp [Get, hn, mapGet_mapSet]
    · simp [Has, hn, mapGet_mapSet]
  · intro rest
    rw [Create_ok urlParseErr maxCap config ("" :: rest) r fresh hnew,
      Create_ok urlParseErr maxCap config [] r fresh hnew]
    simp
  · rw [Create_ok urlParseErr maxCap config [] r fresh hnew]
    split_ifs <;> rfl
  · rw [Create_ok urlParseErr maxCap config [] r fresh hnew]
    split_ifs <;> rfl
  · intro hnone
    rw [Create_ok urlParseErr maxCap config [] r fresh hnew]
    simp [hnone, Get]
  · intro d hd
    rw [Create_ok urlParseErr maxCap config [] r fresh hnew]
    simp [hd, Get]

/-- Witness of `Create_Get_Has`: the valid test configuration and the empty
registry; the client created under the name "custom" is found under it. -/
theorem Create_Get_Has_witness :
    (validTestConfig.Validate urlParseErr = none ∧
      validTestConfig.MaxQueueSize ≤ maxSliceCap) ∧
    Get ["custom"] (Create urlParseErr maxSliceCap validTestConfig ["custom"] emptyRegistry).2 =
      .ok startedTestClient ∧
    Has ["custom"] (Create urlParseErr maxSliceCap validTestConfig ["custom"] emptyRegistry).2 =
      true := by
  obtain ⟨fresh, hnew, -, -, hnamed, -⟩ :=
    Create_Get_Has urlParseErr maxSliceCap validTestConfig emptyRegistry (by decide) (by decide)
  obtain ⟨hc, hg, hh, -⟩ := hnamed "custom" [] (by decide)
  have hfresh : (Create urlParseErr maxSliceCap validTestConfig ["custom"] emptyRegistry).1 =
      .done (.ok startedTestClient) := by decide
  rw [hc] at hfresh
  simp only [Run.done.injEq, Except.ok.injEq] at hfresh
  rw [hfresh] at hg
  exact ⟨⟨by decide, by decide⟩, hg, hh⟩

/-- C18 (evaluation of the code): on a registry whose default instance holds
one queued event and which has a named instance "x", when the delivery fails
and no tick races with the stop signal, the package-level `Shutdown` returns
the error of the default instance at once: the default instance stays
registered, the instance "x" is neither shut down nor removed, `Has()` and
`Has("x")` are still true, and a package-level `Error` call still finds the
default instance and returns nil. -/
theorem Shutdown_stops_at_first_error :
    Shutdown (fun _ => failingDispatch) (fun _ => launchOrder) (fun _ => 0) 5
        twoInstanceRegistry =
      .done (some "HTTP 500: 500 Internal Server Error",
        { instances := [("x", startedTestClient)]
          defaultInstance := some
            { oneQueuedClient with
              eventQueue := [], isActive := false, isEnabled := false, stopChanClosed := true,
              wg := 0 } }) ∧
    Has [] { instances := [("x", startedTestClient)]
             defaultInstance := some
              { oneQueuedClient with
                eventQueue := [], isActive := false, isEnabled := false, stopChanClosed := true,
                wg := 0 } } = true ∧
    Has ["x"] { instances := [("x", startedTestClient)]
                defaultInstance := some
                  { oneQueuedClient with
                    eventQueue := [], isActive := false, isEnabled := false,
                    stopChanClosed := true, wg := 0 } } = true ∧
    startedTestClient.isActive = true ∧ startedTestClient.stopChanClosed = false ∧
    (Error sampleBuildEnv none "ERROR" []
      { instances := [("x", startedTestClient)]
        defaultInstance := some
          { oneQueuedClient with
            eventQueue := [], isActive := false, isEnabled := false, stopChanClosed := true,
            wg := 0 } }).1 = none := by
  decide

/-- When the `Shutdown` of every named instance returns nil, the loop over
the instances returns nil. -/
theorem shutdownInstances_ok (dispatchEvent : Option String → Nat → EventIssue → GoError)
    (picks : Option String → Nat → Nat) (ticks : Option String → Nat) (fuel : Nat) :
    ∀ instances : List (String × ErrorTrackerClient),
      (∀ nc ∈ instances, ∃ res,
        nc.2.Shutdown (dispatchEvent (some nc.1)) (picks (some nc.1)) (ticks (some nc.1)) fuel =
          .done res ∧ res.err = none) →
      ∃ rest, shutdownInstances dispatchEvent picks ticks fuel instances =
        .done (none, rest) := by
  intro instances
  induction instances with
  | nil => intro _; exact ⟨[], rfl⟩
  | cons nc rest ih =>
    intro h
    obtain ⟨n, client⟩ := nc
    obtain ⟨res, hres, herr⟩ := h (n, client) (List.mem_cons_self _ _)
    obtain ⟨rest2, hrest⟩ := ih (fun x hx => h x (List.mem_cons_of_mem _ hx))
    refine ⟨(n, res.client) :: rest2, ?_⟩
    simp only at hres
    simp only [shutdownInstances, hres, herr, hrest]

/-- C19 (counterexample): the package-level `Shutdown` of a registry with two
idle instances returns nil and leaves the empty registry; a `Create` under the
name "y" with the valid test configuration whose MaxQueueSize is
9223372036854775807 then panics, and `Has("y")` stays false. -/
theorem Shutdown_then_Create_panics :
    Shutdown (fun _ => succeedingDispatch) (fun _ => launchOrder) (fun _ => 0) 5 idleRegistry =
      .done (none, emptyRegistry) ∧
    hugeQueueConfig.Validate urlParseErr = none ∧
    (Create urlParseErr maxSliceCap hugeQueueConfig ["y"] emptyRegistry).1 =
      .panic "makeslice: cap out of range" ∧
    Has ["y"] (Create urlParseErr maxSliceCap hugeQueueConfig ["y"] emptyRegistry).2 = false := by
  decide

/-- C19 (amended): on every registry in which the `Shutdown` of each instance
returns nil (the empty registry included), the package-level `Shutdown` returns
nil and leaves the empty registry: `Has` is false and `Get` returns a not-found
error for every name argument; a `Create` under the name "y" with a valid
configuration whose MaxQueueSize is a capacity the runtime can allocate then
succeeds and makes `Has("y")` true. -/
theorem Shutdown_all_then_Create (urlParseErr : String → Bool) (maxCap : Int)
    (config : ClientConfig)
    (dispatchEvent : Option String → Nat → EventIssue → GoError)
    (picks : Option String → Nat → Nat) (ticks : Option String → Nat)
    (fuel : Nat) (r : Registry)
    (hdefault : ∀ d, r.defaultInstance = some d →
      ∃ res, d.Shutdown (dispatchEvent none) (picks none) (ticks none) fuel = .done res ∧
        res.err = none)
    (hnamed : ∀ nc ∈ r.instances, ∃ res,
      nc.2.Shutdown (dispatchEvent (some nc.1)) (picks (some nc.1)) (ticks (some nc.1)) fuel =
        .done res ∧ res.err = none)
    (hv : config.Validate urlParseErr = none) (hcap : config.MaxQueueSize ≤ maxCap) :
    Shutdown dispatchEvent picks ticks fuel r = .done (none, emptyRegistry) ∧
    (∀ name, Has name emptyRegistry = false) ∧
    (∀ name, Get name emptyRegistry = .error .noDefault ∨
      ∃ n, Get name emptyRegistry = .error (.instanceNotFound n)) ∧
    (∃ cl, (Create urlParseErr maxCap config ["y"] emptyRegistry).1 = .done (.ok cl)) ∧
    Has ["y"] (Create urlParseErr maxCap config ["y"] emptyRegistry).2 = true := by
  obtain ⟨rest, hrest⟩ := shutdownInstances_ok dispatchEvent picks ticks fuel r.instances hnamed
  have hnamedRun : ∀ r2 : Registry, r2.instances = r.instances → r2.defaultInstance = none →
      shutdownNamed dispatchEvent picks ticks fuel r2 = .done (none, emptyRegistry) := by
    intro r2 h1 h2
    simp only [shutdownNamed, h1, hrest, emptyRegistry]
    cases r2
    simp only at h2
    subst h2
    rfl
  obtain ⟨fresh, hnew, -, -⟩ := NewClient_of_valid urlParseErr maxCap config hv hcap
  refine ⟨?_, ?_, ?_, ?_, ?_⟩
  · cases hd : r.defaultInstance with
    | none =>
      simp only [Shutdown, hd]
      exact hnamedRun r rfl hd
    | some d =>
      obtain ⟨res, hres, herr⟩ := hdefault d hd
      simp only [Shutdown, hd, hres, herr]
      exact hnamedRun _ rfl rfl
  · intro name
    rcases name with _ | ⟨n, rest⟩
    · rfl
    · by_cases hn : n = "" <;> simp [Has, hn, emptyRegistry, mapGet]
  · intro name
    rcases name with _ | ⟨n, rest⟩
    · exact Or.inl rfl
    · by_cases hn : n = ""
      · exact Or.inl (by simp [Get, hn, emptyRegistry])
      · exact Or.inr ⟨n, by simp [Get, hn, emptyRegistry, mapGet]⟩
  · exact ⟨fresh.Start,
      by rw [Create_ok urlParseErr maxCap config ["y"] emptyRegistry fresh hnew]; rfl⟩
  · rw [Create_ok urlParseErr maxCap config ["y"] emptyRegistry fresh hnew]
    simp [Has, mapSet, mapGet, emptyRegistry]

/-- Witness of `Shutdown_all_then_Create`: a registry with an idle default
client and an idle client named "x", and the valid test configuration. -/
theorem Shutdown_all_then_Create_witness :
    Shutdown (fun _ => succeedingDispatch) (fun _ => launchOrder) (fun _ => 1) 5 idleRegistry =
      .done (none, emptyRegistry) ∧
    Has ["y"] (Create urlParseErr maxSliceCap validTestConfig ["y"] emptyRegistry).2 = true := by
  have hstop : startedTestClient.Shutdown succeedingDispatch launchOrder 1 5 =
      .done ⟨none, stoppedTestClient,
        [⟨none, { startedTestClient with isActive := false, stopChanClosed := true }, [], []⟩],
        []⟩ := by decide
  obtain ⟨h1, -, -, -, h5⟩ :=
    Shutdown_all_then_Create urlParseErr maxSliceCap validTestConfig (fun _ => succeedingDispatch)
      (fun _ => launchOrder) (fun _ => 1) 5 idleRegistry
      (fun d hd => by
        have hd2 : d = startedTestClient := by
          simp only [idleRegistry, Option.some.injEq] at hd
          exact hd.symm
        subst hd2
        exact ⟨_, hstop, rfl⟩)
      (fun nc hnc => by
        have hnc2 : nc = ("x", startedTestClient) := by
          simpa [idleRegistry] using hnc
        subst hnc2
        exact ⟨_, hstop, rfl⟩)
      (by decide) (by decide)
  exact ⟨h1, h5⟩

/-- C20 (counterexample): a registry that holds the instance "x" but no
default instance: the package-level `Error` and `Event` return the error "no
default tracker initialized". -/
theorem Error_without_default :
    Has ["x"] namedOnlyRegistry = true ∧
    (Error sampleBuildEnv none "ERROR" [] namedOnlyRegistry).1 = some .noDefault ∧
    (Event sampleBuildEnv "User logged in" "INFO" [] namedOnlyRegistry).1 = some .noDefault := by
  decide

/-- C20 (amended): the package-level `Error` and `Event` return nil exactly
when a default instance exists, whatever its enabled flag and whatever the
named instances are; without a default instance, in particular on the empty
registry, they return the error of `Get` and leave the registry unchanged.
They never touch the named instances. -/
theorem Error_Event_nil_iff (env : BuildEnv) (err : Option ErrorValue) (title level : String)
    (metadata : List (String × String)) (r : Registry) :
    ((Error env err level metadata r).1 = none ↔ r.defaultInstance ≠ none) ∧
    ((Event env title level metadata r).1 = none ↔ r.defaultInstance ≠ none) ∧
    (r.defaultInstance = none →
      Error env err level metadata r = (some .noDefault, r) ∧
      Event env title level metadata r = (some .noDefault, r)) ∧
    (Error env err level metadata emptyRegistry).1 = some .noDefault ∧
    (Event env title level metadata emptyRegistry).1 = some .noDefault ∧
    (Error env err level metadata r).2.instances = r.instances ∧
    (Event env title level metadata r).2.instances = r.instances := by
  cases hd : r.defaultInstance with
  | none =>
    simp [Error, Event, Get, hd, emptyRegistry]
  | some d =>
    simp [Error, Event, Get, hd, emptyRegistry]

/-! ### The result of a batch and the draining flag -/

/-- `processBatch` is its first critical section, the dispatches, and its
second critical section. -/
theorem processBatch_eq_begin_end (c : ErrorTrackerClient)
    (dispatchEvent : Nat → EventIssue → GoError) (picks : Nat → Nat) :
    c.processBatch dispatchEvent picks =
      match c.flushBegin with
      | none => none
      | some (c2, none) => some ⟨none, c2, [], []⟩
      | some (c2, some batch) =>
        some ⟨(Dispatching.wait dispatchEvent picks batch.length 0
            ⟨batch.enum, [], []⟩).errChan.head?, c2.flushEnd, batch,
          (Dispatching.wait dispatchEvent picks batch.length 0 ⟨batch.enum, [], []⟩).finished⟩ := by
  unfold ErrorTrackerClient.processBatch ErrorTrackerClient.flushBegin
  by_cases h1 : c.eventQueue.length = 0 ∨ c.isProcessing = true
  · simp only [if_pos h1]
  · simp only [if_neg h1]
    split_ifs <;> rfl

/-- C21: for every non-empty batch that `processBatch` extracts (queue not
empty, no flush in flight, MaxQueueSize >= 1), every assignment of dispatch
outcomes to the positions of the batch (equal events may fare differently) and
every order in which the dispatching goroutines finish, `processBatch`
returns; when it does, the goroutines that have finished are exactly one per
position of the batch, so every event was dispatched once; it returns nil if
and only if every dispatch succeeded, and otherwise the dispatch error of a
failing event of the batch, the first in the error channel; and the draining
flag is false when it returns. -/
theorem processBatch_result (c : ErrorTrackerClient)
    (dispatchEvent : Nat → EventIssue → GoError) (picks : Nat → Nat)
    (hm : 1 ≤ c.config.MaxQueueSize) (hp : c.isProcessing = false)
    (hL : 0 < c.eventQueue.length) :
    ∃ r, c.processBatch dispatchEvent picks = some r ∧
      r.batch ≠ [] ∧
      r.dispatched.Perm r.batch.enum ∧
      r.dispatched.length = r.batch.length ∧
      r.err = (r.dispatched.filterMap (fun g => dispatchEvent g.1 g.2)).head? ∧
      (r.err = none ↔ ∀ g ∈ r.batch.enum, dispatchEvent g.1 g.2 = none) ∧
      (∀ e, r.err = some e → ∃ g ∈ r.batch.enum, dispatchEvent g.1 g.2 = some e) ∧
      r.client.isProcessing = false := by
  obtain ⟨r, hr, hbatch, hclient, hperm, herr⟩ := processBatch_spec c dispatchEvent picks hm hp hL
  have hsome : ∀ e, r.err = some e → ∃ g ∈ r.batch.enum, dispatchEvent g.1 g.2 = some e := by
    intro e he
    rw [herr] at he
    have hmem : e ∈ r.dispatched.filterMap (fun g => dispatchEvent g.1 g.2) :=
      List.mem_of_mem_head? he
    obtain ⟨g, hg, hd⟩ := List.mem_filterMap.mp hmem
    exact ⟨g, hperm.mem_iff.mp hg, hd⟩
  refine ⟨r, hr, ?_, hperm, ?_, herr, ?_, hsome, ?_⟩
  · intro hnil
    have hlen := congrArg List.length hnil
    rw [hbatch] at hlen
    simp only [List.length_take, List.length_nil] at hlen
    omega
  · rw [hperm.length_eq, List.enum_length]
  · constructor
    · intro h g hg
      cases hd : dispatchEvent g.1 g.2 with
      | none => rfl
      | some e =>
        have hmem : e ∈ r.dispatched.filterMap (fun g => dispatchEvent g.1 g.2) :=
          List.mem_filterMap.mpr ⟨g, hperm.mem_iff.mpr hg, hd⟩
        rw [herr] at h
        cases hl : r.dispatched.filterMap (fun g => dispatchEvent g.1 g.2) with
        | nil => rw [hl] at hmem; simp at hmem
        | cons x xs => rw [hl] at h; simp at h
    · intro h
      cases he : r.err with
      | none => rfl
      | some e =>
        obtain ⟨g, hg, hd⟩ := hsome e he
        rw [h g hg] at hd
        simp at hd
  · rw [hclient]
    exact hp

/-- Witness of `processBatch_result`: the queue holds the same event twice and
MaxQueueSize is 2; the endpoint accepts the request of the first goroutine and
refuses those of the second, which finishes first; the error of the refused
request is returned. -/
theorem processBatch_result_witness :
    (1 ≤ twinQueuedClient.config.MaxQueueSize ∧ twinQueuedClient.isProcessing = false ∧
      0 < twinQueuedClient.eventQueue.length) ∧
    ∃ r, twinQueuedClient.processBatch twinDispatch secondFirst = some r ∧
      r.batch = [sampleEvent "1" "a", sampleEvent "1" "a"] ∧
      r.dispatched = [(1, sampleEvent "1" "a"), (0, sampleEvent "1" "a")] ∧
      twinDispatch 0 (sampleEvent "1" "a") = none ∧
      r.err = some "request failed: connection refused" ∧
      r.client.isProcessing = false := by
  obtain ⟨r, hr, -, -, -, herr, -, -, hproc⟩ :=
    processBatch_result twinQueuedClient twinDispatch secondFirst
      (by decide) (by decide) (by decide)
  have hval : twinQueuedClient.processBatch twinDispatch secondFirst =
      some ⟨some "request failed: connection refused",
        { twinQueuedClient with eventQueue := [] },
        [sampleEvent "1" "a", sampleEvent "1" "a"],
        [(1, sampleEvent "1" "a"), (0, sampleEvent "1" "a")]⟩ := by
    rfl
  rw [hval] at hr
  simp only [Option.some.injEq] at hr
  subst hr
  exact ⟨by decide, _, hval, rfl, rfl, rfl, rfl, rfl⟩

/-- C22: `enqueue` appends the event at the tail of the queue, changes nothing
else, and launches a flush if and only if the length of the queue right after
the append is at least MaxQueueSize.  With MaxQueueSize = 2, an empty queue and
no flush in flight, the first `enqueue` launches no flush and the second
launches one, and that `processBatch` extracts both events and empties the
queue. -/
theorem enqueue_trigger (c : ErrorTrackerClient) (event event2 : EventIssue)
    (dispatchEvent : Nat → EventIssue → GoError) (picks : Nat → Nat) :
    (c.enqueue event).1 = { c with eventQueue := c.eventQueue ++ [event] } ∧
    ((c.enqueue event).2 = true ↔
      ((c.enqueue event).1.eventQueue.length : Int) ≥ c.config.MaxQueueSize) ∧
    (c.config.MaxQueueSize = 2 → c.eventQueue = [] → c.isProcessing = false →
      (c.enqueue event).2 = false ∧
      ((c.enqueue event).1.enqueue event2).2 = true ∧
      ((c.enqueue event).1.enqueue event2).1.eventQueue = [event, event2] ∧
      ∃ r, ((c.enqueue event).1.enqueue event2).1.processBatch dispatchEvent picks =
          some r ∧
        r.batch = [event, event2] ∧ r.client.eventQueue = []) := by
  refine ⟨rfl, by simp [ErrorTrackerClient.enqueue], ?_⟩
  intro hm hq hp
  refine ⟨by simp [ErrorTrackerClient.enqueue, hm, hq],
    by simp [ErrorTrackerClient.enqueue, hm, hq],
    by simp [ErrorTrackerClient.enqueue, hq], ?_⟩
  have hpb := processBatch_eq ((c.enqueue event).1.enqueue event2).1 dispatchEvent picks
    (by show 1 ≤ c.config.MaxQueueSize; omega) hp
    (by simp [ErrorTrackerClient.enqueue])
  refine ⟨_, hpb, ?_, ?_⟩
  · simp [ErrorTrackerClient.enqueue, hq, hm]
  · simp [ErrorTrackerClient.enqueue, hq, hm]

/-- Witness of `enqueue_trigger`: the client with MaxQueueSize 2 and an empty
queue; the second `enqueue` launches the flush, which extracts both events. -/
theorem enqueue_trigger_witness :
    (sizeTwoClient.enqueue (sampleEvent "1" "a")).2 = false ∧
    ((sizeTwoClient.enqueue (sampleEvent "1" "a")).1.enqueue (sampleEvent "2" "b")).2 = true ∧
    ∃ r, ((sizeTwoClient.enqueue (sampleEvent "1" "a")).1.enqueue
        (sampleEvent "2" "b")).1.processBatch succeedingDispatch launchOrder = some r ∧
      r.batch = [sampleEvent "1" "a", sampleEvent "2" "b"] ∧ r.client.eventQueue = [] := by
  obtain ⟨h1, h2, -, h4⟩ :=
    (enqueue_trigger sizeTwoClient (sampleEvent "1" "a") (sampleEvent "2" "b")
      succeedingDispatch launchOrder).2.2 (by decide) (by decide) (by decide)
  exact ⟨h1, h2, h4⟩

/-- The invariant of the flush steps: exactly the calls that hold the draining
flag are in flight. -/
theorem flushStep_invariant (s s2 : FlushState) (a : FlushAction)
    (hinv : s.inFlight.length = if s.client.isProcessing = true then 1 else 0)
    (h : flushStep s a = some s2) :
    s2.inFlight.length = if s2.client.isProcessing = true then 1 else 0 := by
  cases a with
  | begin =>
    simp only [flushStep, ErrorTrackerClient.flushBegin] at h
    by_cases h1 : s.client.eventQueue.length = 0 ∨ s.client.isProcessing = true
    · simp only [if_pos h1, Option.some.injEq] at h
      subst h
      exact hinv
    · simp only [if_neg h1] at h
      have hnp : s.client.isProcessing = false := by
        cases hp : s.client.isProcessing
        · rfl
        · exact absurd (Or.inr hp) h1
      split_ifs at h <;>
        · simp only [Option.some.injEq] at h
          subst h
          simp [hinv, hnp]
  | finish i =>
    simp only [flushStep] at h
    split_ifs at h with hi
    simp only [Option.some.injEq] at h
    subst h
    have hone : s.inFlight.length = 1 := by
      split_ifs at hinv with hp
      · exact hinv
      · omega
    have hi0 : i = 0 := by omega
    simp [ErrorTrackerClient.flushEnd, List.length_eraseIdx, hi0, hone]
  | enqueue event =>
    simp only [flushStep, Option.some.injEq] at h
    subst h
    exact hinv
  | pause =>
    simp only [flushStep, Option.some.injEq] at h
    subst h
    exact hinv
  | resume =>
    simp only [flushStep, Option.some.injEq] at h
    subst h
    exact hinv

/-- The invariant holds after every sequence of flush steps. -/
theorem flushRun_invariant (acts : List FlushAction) :
    ∀ s s2 : FlushState,
      (s.inFlight.length = if s.client.isProcessing = true then 1 else 0) →
      flushRun s acts = some s2 →
      s2.inFlight.length = if s2.client.isProcessing = true then 1 else 0 := by
  induction acts with
  | nil =>
    intro s s2 hinv h
    simp only [flushRun, Option.some.injEq] at h
    subst h
    exact hinv
  | cons a rest ih =>
    intro s s2 hinv h
    simp only [flushRun] at h
    cases hs : flushStep s a with
    | none => simp [hs] at h
    | some s1 =>
      simp only [hs] at h
      exact ih s1 s2 (flushStep_invariant s s1 a hinv hs) h

/-- C23: `processBatch` is a no-op whenever a flush is in flight or the queue
is empty: it returns nil, dispatches nothing and leaves the client, its queue
and its draining flag unchanged.  Consequently, with the two critical sections
of `processBatch` as atomic steps interleaved in any way with each other and
with `enqueue`, `Pause` and `Resume`, from a client with no flush in flight
every reachable state has at most one extraction and dispatch in flight, one
exactly when the draining flag is set, and a further `processBatch` that begins
meanwhile changes nothing. -/
theorem processBatch_noop_single_flight (c : ErrorTrackerClient)
    (dispatchEvent : Nat → EventIssue → GoError) (picks : Nat → Nat)
    (acts : List FlushAction) :
    (c.eventQueue = [] ∨ c.isProcessing = true →
      c.processBatch dispatchEvent picks = some ⟨none, c, [], []⟩) ∧
    (c.eventQueue = [] ∨ c.isProcessing = true → c.flushBegin = some (c, none)) ∧
    (c.isProcessing = false →
      ∀ s, flushRun ⟨c, []⟩ acts = some s →
        s.inFlight.length ≤ 1 ∧
        (s.inFlight.length = 1 ↔ s.client.isProcessing = true) ∧
        (s.inFlight.length = 1 → flushStep s .begin = some s)) := by
  have hcond : c.eventQueue = [] ∨ c.isProcessing = true →
      (c.eventQueue.length = 0 ∨ c.isProcessing = true) := by
    rintro (h | h)
    · exact Or.inl (by rw [h]; rfl)
    · exact Or.inr h
  refine ⟨fun h => by simp only [ErrorTrackerClient.processBatch, if_pos (hcond h)],
    fun h => by simp only [ErrorTrackerClient.flushBegin, if_pos (hcond h)], ?_⟩
  intro hp s hrun
  have hinv := flushRun_invariant acts ⟨c, []⟩ s (by simp [hp]) hrun
  by_cases hs : s.client.isProcessing = true
  · rw [if_pos hs] at hinv
    refine ⟨by omega, ⟨fun _ => hs, fun _ => hinv⟩, fun _ => ?_⟩
    simp only [flushStep, ErrorTrackerClient.flushBegin, if_pos (Or.inr hs)]
  · rw [if_neg hs] at hinv
    refine ⟨by omega, ⟨fun h => by omega, fun h => absurd h hs⟩, fun h => by omega⟩

/-- Witness of `processBatch_noop_single_flight`: two events are queued on the
client with MaxQueueSize 2, a flush begins, a second flush is attempted, a
third event is queued and another flush is attempted: one batch is in flight
and the third event waits in the queue. -/
theorem processBatch_noop_single_flight_witness :
    flushRun ⟨sizeTwoClient, []⟩
        [.enqueue (sampleEvent "1" "a"), .enqueue (sampleEvent "2" "b"), .begin, .begin,
          .enqueue (sampleEvent "3" "c"), .begin] =
      some ⟨{ sizeTwoClient with eventQueue := [sampleEvent "3" "c"], isProcessing := true },
        [[sampleEvent "1" "a", sampleEvent "2" "b"]]⟩ ∧
    ([[sampleEvent "1" "a", sampleEvent "2" "b"]] : List (List EventIssue)).length ≤ 1 :=
  ⟨by decide,
    ((processBatch_noop_single_flight sizeTwoClient succeedingDispatch launchOrder
      [.enqueue (sampleEvent "1" "a"), .enqueue (sampleEvent "2" "b"), .begin, .begin,
        .enqueue (sampleEvent "3" "c"), .begin]).2.2 (by decide)
      ⟨{ sizeTwoClient with eventQueue := [sampleEvent "3" "c"], isProcessing := true },
        [[sampleEvent "1" "a", sampleEvent "2" "b"]]⟩ (by decide)).1⟩

/-! ### The backoff for every attempt -/

/-- The backoff does not depend on the transport. -/
theorem calculateBackoff_const (t : Transport) (attempt : Int) :
    t.calculateBackoff attempt = (NewTransport validTestConfig).calculateBackoff attempt := rfl

/-- The backoff for the attempts 0..33, where the product does not overflow. -/
theorem calculateBackoff_closed (t : Transport) (a : Int) (h0 : 0 ≤ a) (h33 : a ≤ 33) :
    t.calculateBackoff a = min (1000000000 * 2 ^ a.toNat) 30000000000 := by
  rw [calculateBackoff_const]
  interval_cases a <;> decide

/-- C24 (counterexample): attempt 34 is a non-negative int, yet the product
1s * 2^34 overflows the 64-bit duration and `calculateBackoff 34` is negative:
it is below 1s, and below `calculateBackoff 33`, which is 30s.  From attempt 64
on the shift gives 0 and the backoff is 0. -/
theorem calculateBackoff_overflow :
    (NewTransport validTestConfig).calculateBackoff 33 = 30000000000 ∧
    (NewTransport validTestConfig).calculateBackoff 34 = -1266874889709551616 ∧
    (NewTransport validTestConfig).calculateBackoff 34 < 1000000000 ∧
    (NewTransport validTestConfig).calculateBackoff 34 <
      (NewTransport validTestConfig).calculateBackoff 33 ∧
    (NewTransport validTestConfig).calculateBackoff 64 = 0 := by
  decide

/-- C24 (amended): with `time.Duration` a wrapping 64-bit count and Go's shift
semantics, for every attempt from 0 to 33 `calculateBackoff` is
min(1s * 2^attempt, 30s), hence at least 1s and at most 30s, and it is
non-decreasing on that range; the upper bound of 30s holds for every int
attempt. -/
theorem calculateBackoff_bounds (t : Transport) (a b : Int) (h0 : 0 ≤ a) (hab : a ≤ b)
    (h33 : b ≤ 33) :
    t.calculateBackoff a = min (1000000000 * 2 ^ a.toNat) 30000000000 ∧
    1000000000 ≤ t.calculateBackoff a ∧
    t.calculateBackoff a ≤ 30000000000 ∧
    t.calculateBackoff a ≤ t.calculateBackoff b ∧
    ∀ x : Int, t.calculateBackoff x ≤ 30000000000 := by
  have ha := calculateBackoff_closed t a h0 (by omega)
  have hb := calculateBackoff_closed t b (by omega) h33
  have hpow : (1 : Int) ≤ 2 ^ a.toNat := one_le_pow₀ (by norm_num)
  have hmono : (2 : Int) ^ a.toNat ≤ 2 ^ b.toNat :=
    pow_le_pow_right₀ (by norm_num) (Int.toNat_le_toNat hab)
  refine ⟨ha, ?_, ?_, ?_, ?_⟩
  · rw [ha]
    exact le_min (by omega) (by norm_num)
  · rw [ha]
    exact min_le_right _ _
  · rw [ha, hb]
    exact min_le_min (by omega) (le_refl _)
  · intro x
    simp only [Transport.calculateBackoff, Second]
    split_ifs with h
    · norm_num
    · omega

/-- Witness of `calculateBackoff_bounds`: the attempts 4 and 33. -/
theorem calculateBackoff_bounds_witness :
    (NewTransport validTestConfig).calculateBackoff 4 = 16000000000 ∧
    (NewTransport validTestConfig).calculateBackoff 4 ≤
      (NewTransport validTestConfig).calculateBackoff 33 :=
  ⟨by decide,
    (calculateBackoff_bounds (NewTransport validTestConfig) 4 33 (by decide) (by decide)
      (by decide)).2.2.2.1⟩

end Tracker
